import Mathlib

/-!
Verification of the OAuth 2.1 proxy / session subsystem of the realize-mcp
repository.  The Python modules under `src/realize/oauth/` (context, session,
token, refresh, metadata, dcr, routes) and `src/realize/auth.py` /
`src/realize/models.py` are shallowly embedded below: pure functions become
Lean functions, stateful methods pass the session store explicitly, network
I/O becomes an explicit "upstream outcome" parameter, and Python exceptions
become an `Except` error channel whose error kinds mirror the Python
exception classes involved.
-/

namespace RealizeMCP

/-- A JSON value, as produced by `response.json()` in the Python code.
Numbers are modelled as integers (the fields the subsystem reads --
`expires_in`, timestamps -- are integral). -/
inductive Json where
  | null
  | bool (b : Bool)
  | num (n : Int)
  | str (s : String)
  | arr (xs : List Json)
  | obj (kvs : List (String × Json))

/-- Python `==` between a JSON value and a string literal (only equal string
values compare equal; all other JSON values compare unequal to a `str`). -/
def Json.eqStr : Json → String → Bool
  | .str t, s => t = s
  | _, _ => false

/-- Python exception kinds raised by the embedded code.  `valueError` covers
`ValueError` and its subclasses `json.JSONDecodeError` and pydantic's
`ValidationError`; the other constructors match the like-named Python
exception classes. -/
inductive PyError where
  | valueError (msg : String)
  | tokenProxyError (msg : String)
  | typeError (msg : String)
  | keyError (msg : String)
  | attributeError (msg : String)
  | requestException (msg : String)
  | httpStatusError (status : Nat)
deriving DecidableEq, Repr

/-- First-match lookup in an association list (Python `dict` read). -/
def listGet {α : Type} : List (String × α) → String → Option α
  | [], _ => none
  | (k, v) :: rest, key => if k = key then some v else listGet rest key

/-- Python `dict` assignment: update the first entry with the key in place
(keeping its position, as Python dicts do), else append the new entry. -/
def listSet {α : Type} : List (String × α) → String → α → List (String × α)
  | [], key, v => [(key, v)]
  | (k, w) :: rest, key, v =>
      if k = key then (key, v) :: rest else (k, w) :: listSet rest key v

/-- Python `del d[key]` / `d.pop(key, None)`: remove the first entry with the
key (a well-formed dict has at most one). -/
def listErase {α : Type} : List (String × α) → String → List (String × α)
  | [], _ => []
  | (k, w) :: rest, key => if k = key then rest else (k, w) :: listErase rest key

/-- Keys of an association list, in iteration order. -/
def keysOf {α : Type} (l : List (String × α)) : List String := l.map Prod.fst

/-- Python truthiness of an `Optional[str]`: `None` and the empty string are
falsy; the code tests options with bare `if x:` / `if not x:`. -/
def pyTruthy : Option String → Bool
  | none => false
  | some s => s ≠ ""

/-- Python `a or b` on `Optional[str]` values (used for
`client_id or config.oauth_dcr_client_id`). -/
def pyOrOpt (a b : Option String) : Option String :=
  if pyTruthy a then a else b

mutual

/-- Python `repr()` of a JSON value (element form used inside containers). -/
def pyRepr : Json → String
  | .null => "None"
  | .bool true => "True"
  | .bool false => "False"
  | .num n => toString n
  | .str s => "\x27" ++ s ++ "\x27"
  | .arr xs => "[" ++ pyReprList xs ++ "]"
  | .obj kvs => "\x7b" ++ pyReprKVs kvs ++ "\x7d"

/-- Comma-separated `repr()` of list elements. -/
def pyReprList : List Json → String
  | [] => ""
  | [x] => pyRepr x
  | x :: y :: rest => pyRepr x ++ ", " ++ pyReprList (y :: rest)

/-- Comma-separated `repr()` of dict entries. -/
def pyReprKVs : List (String × Json) → String
  | [] => ""
  | [(k, v)] => "\x27" ++ k ++ "\x27: " ++ pyRepr v
  | (k, v) :: e :: rest =>
      "\x27" ++ k ++ "\x27: " ++ pyRepr v ++ ", " ++ pyReprKVs (e :: rest)

end

/-- Python `str()` of a JSON value, as applied by an f-string interpolation:
strings are used verbatim, containers print via `repr` of their elements. -/
def pyStr : Json → String
  | .str s => s
  | v => pyRepr v

/-- A Python `datetime`: either timezone-aware (carrying a UTC timestamp) or
naive (carrying seconds on the naive local clock).  `models.utc_now()` makes
aware datetimes; `datetime.now()` makes naive ones. -/
structure PyDateTime where
  aware : Bool
  t : Int
deriving DecidableEq, Repr

/-- `d + timedelta(seconds = s)` (preserves awareness). -/
def addSeconds (d : PyDateTime) (s : Int) : PyDateTime :=
  { d with t := d.t + s }

/-- Python `a >= b` on datetimes: comparing a naive and an aware datetime
raises `TypeError`; otherwise it compares the underlying times. -/
def pyGE (a b : PyDateTime) : Except PyError Bool :=
  if a.aware = b.aware then .ok (decide (a.t ≥ b.t))
  else .error (.typeError "cannot compare offset-naive and offset-aware datetimes")

/-- `models.Token`: the simple token used by `ClientCredentialsAuth`
(src/realize/models.py, class Token). -/
structure TokenModel where
  access_token : String
  token_type : String := "Bearer"
  expires_in : Int
  created_at : Option PyDateTime := none
deriving DecidableEq, Repr

/-- `models.OAuth21Token` (src/realize/models.py, class OAuth21Token). -/
structure OAuth21Token where
  access_token : String
  token_type : String := "Bearer"
  expires_in : Int
  refresh_token : Option String := none
  scope : Option String := none
  session_id : Option String := none
  created_at : Option PyDateTime := none
deriving DecidableEq, Repr

/-- `OAuth21Token.is_expired` (models.py lines 46-58): expired when
`created_at` is absent, else compares a "now" on the same clock as
`created_at` (naive `datetime.now()` when `created_at` is naive, aware
`utc_now()` when it is aware) against `created_at + expires_in - buffer`.
`nowNaive`/`nowAware` are the two clocks' current readings. -/
def is_expired (tok : OAuth21Token) (nowNaive nowAware : Int) (buffer : Int) : Bool :=
  match tok.created_at with
  | none => true
  | some ca =>
      let now : Int := if ca.aware then nowAware else nowNaive
      decide (now ≥ ca.t + tok.expires_in - buffer)

/-- `ClientCredentialsAuth._is_token_expired` (auth.py lines 91-97): returns
`True` when there is no token or no `created_at`; otherwise evaluates
`utc_now() >= created_at + timedelta(seconds=expires_in)` -- always using the
timezone-aware clock, so a naive `created_at` makes the comparison raise. -/
def auth_is_token_expired (token : Option TokenModel) (nowAware : Int) :
    Except PyError Bool :=
  match token with
  | none => .ok true
  | some tok =>
      match tok.created_at with
      | none => .ok true
      | some ca => pyGE { aware := true, t := nowAware } (addSeconds ca tok.expires_in)

/-- The `OAuth21Token` carrying the same `access_token`, `expires_in` and
`created_at` as a simple `Token` (used to state claim C9's comparison). -/
def oauth21OfToken (tok : TokenModel) : OAuth21Token :=
  { access_token := tok.access_token
    token_type := tok.token_type
    expires_in := tok.expires_in
    created_at := tok.created_at }

/-- `session.SessionData`: a stored token with access-time metadata;
timestamps are `utc_now().timestamp()` values, modelled as integers. -/
structure SessionData where
  token : OAuth21Token
  created_at : Int
  last_accessed : Int
deriving DecidableEq, Repr

/-- The `InMemorySessionManager._sessions` dict: an insertion-ordered map
from session id to `SessionData` (Python dicts preserve insertion order). -/
abbrev Store := List (String × SessionData)

/-- `min(self._sessions, key=lambda k: self._sessions[k].last_accessed)`
returns the first entry (in iteration order) with minimal `last_accessed`;
`none` on an empty dict (where Python `min` would raise). -/
def argminLast : Store → Option (String × SessionData)
  | [] => none
  | p :: rest =>
      match argminLast rest with
      | none => some p
      | some q => some (if q.2.last_accessed < p.2.last_accessed then q else p)

/-- `set_token` stamps `token.session_id = session_id` before storing
(session.py line 103). -/
def stampToken (tok : OAuth21Token) (sid : String) : OAuth21Token :=
  { tok with session_id := some sid }

/-- `InMemorySessionManager.get_token` (session.py lines 85-92): returns the
token and refreshes `last_accessed`; `none` leaves the store unchanged. -/
def get_token (st : Store) (sid : String) (now : Int) :
    Option OAuth21Token × Store :=
  match listGet st sid with
  | some sd => (some sd.token, listSet st sid { sd with last_accessed := now })
  | none => (none, st)

/-- `InMemorySessionManager.set_token` (session.py lines 94-104): when the id
is new and the store holds at least `maxSessions` entries, evict the entry
with the smallest `last_accessed`; then store fresh `SessionData` (both
timestamps set to now) under the id, stamping the token's `session_id`. -/
def set_token (maxSessions : Nat) (st : Store) (sid : String)
    (tok : OAuth21Token) (now : Int) : Store :=
  let st1 :=
    if (listGet st sid).isNone ∧ st.length ≥ maxSessions then
      match argminLast st with
      | some oldest => listErase st oldest.1
      | none => st
    else st
  listSet st1 sid { token := stampToken tok sid, created_at := now, last_accessed := now }

/-- `InMemorySessionManager.delete_session` (session.py lines 106-109). -/
def delete_session (st : Store) (sid : String) : Store :=
  listErase st sid

/-- `InMemorySessionManager.cleanup_expired` (session.py lines 116-128):
removes every session with `now - last_accessed > maxAge` and returns the
count removed. -/
def cleanup_expired (st : Store) (maxAge : Int) (now : Int) : Nat × Store :=
  ((st.filter (fun p => decide (now - p.2.last_accessed > maxAge))).length,
   st.filter (fun p => ¬ decide (now - p.2.last_accessed > maxAge)))

/-- `InMemorySessionManager.find_session_by_token` (session.py lines
135-149): linear scan; on the first matching `access_token` refreshes that
session's `last_accessed` and returns the session id. -/
def find_session_by_token : Store → String → Int → Option String × Store
  | [], _, _ => (none, [])
  | (k, sd) :: rest, accessTok, now =>
      if sd.token.access_token = accessTok then
        (some k, (k, { sd with last_accessed := now }) :: rest)
      else
        let r := find_session_by_token rest accessTok now
        (r.1, (k, sd) :: r.2)

/-- One call against the Session Store, with the clock reading at the time of
the call made explicit. -/
inductive StoreOp where
  | getTok (sid : String) (now : Int)
  | setTok (sid : String) (tok : OAuth21Token) (now : Int)
  | delSession (sid : String)
  | cleanup (maxAge : Int) (now : Int)
  | findByTok (accessTok : String) (now : Int)

/-- Effect of one Session Store call on the store. -/
def applyOp (maxSessions : Nat) (st : Store) : StoreOp → Store
  | .getTok sid now => (get_token st sid now).2
  | .setTok sid tok now => set_token maxSessions st sid tok now
  | .delSession sid => delete_session st sid
  | .cleanup maxAge now => (cleanup_expired st maxAge now).2
  | .findByTok accessTok now => (find_session_by_token st accessTok now).2

/-- Run a sequence of Session Store calls starting from the empty store of an
`InMemorySessionManager(max_sessions = maxSessions)`. -/
def runOps (maxSessions : Nat) (ops : List StoreOp) : Store :=
  ops.foldl (applyOp maxSessions) []

/-- A character class `[a-f0-9]` under `re.IGNORECASE`: any hexadecimal
digit, either case. -/
def isHexDigit (c : Char) : Bool :=
  (decide (c ≥ '0') && decide (c ≤ '9')) ||
  (decide (c ≥ 'a') && decide (c ≤ 'f')) ||
  (decide (c ≥ 'A') && decide (c ≤ 'F'))

/-- The class `[a-f0-9]` without `IGNORECASE` (the form `str(uuid.uuid4())`
produces). -/
def isLowerHexDigit (c : Char) : Bool :=
  (decide (c ≥ '0') && decide (c ≤ '9')) ||
  (decide (c ≥ 'a') && decide (c ≤ 'f'))

/-- Consume exactly `n` characters satisfying `p` (the regex piece
`[a-f0-9]{n}`), returning the rest of the input. -/
def takeCount (p : Char → Bool) : Nat → List Char → Option (List Char)
  | 0, cs => some cs
  | _ + 1, [] => none
  | n + 1, c :: cs => if p c then takeCount p n cs else none

/-- The regex piece `-?` (greedy; backtracking never helps here because a
hyphen is not a hex digit). -/
def skipHyphen : List Char → List Char
  | [] => []
  | c :: cs => if c = '-' then cs else c :: cs

/-- The core of `SESSION_ID_PATTERN` (session.py line 17): hex-digit groups
8-4-4-4-12 with each separating hyphen independently optional.  Returns the
unconsumed rest of the input. -/
def uuidCore (cs : List Char) : Option (List Char) :=
  match takeCount isHexDigit 8 cs with
  | none => none
  | some cs =>
  match takeCount isHexDigit 4 (skipHyphen cs) with
  | none => none
  | some cs =>
  match takeCount isHexDigit 4 (skipHyphen cs) with
  | none => none
  | some cs =>
  match takeCount isHexDigit 4 (skipHyphen cs) with
  | none => none
  | some cs => takeCount isHexDigit 12 (skipHyphen cs)

/-- Python's `$` anchor: matches at the end of the string, or just before a
single newline at the end of the string. -/
def dollarAnchorOk : List Char → Bool
  | [] => true
  | [c] => c = '\n'
  | _ => false

/-- `session.is_valid_session_id` (session.py lines 20-22):
`re.match(SESSION_ID_PATTERN, s)` with the pattern anchored by `^...$` under
`re.IGNORECASE`. -/
def is_valid_session_id (s : String) : Bool :=
  match uuidCore s.data with
  | some rest => dollarAnchorOk rest
  | none => false

/-- The UUID-like shape exactly as the specification words it: 32
case-insensitive hex digits in groups 8-4-4-4-12 with each separating hyphen
independently optional, and nothing else in the string. -/
def specUuidShape (s : String) : Bool :=
  match uuidCore s.data with
  | some rest => rest.isEmpty
  | none => false

/-- The regex piece `-` (a mandatory hyphen). -/
def expectHyphen : List Char → Option (List Char)
  | [] => none
  | c :: cs => if c = '-' then some cs else none

/-- The canonical textual form produced by `str(uuid.uuid4())`: lowercase hex
groups 8-4-4-4-12 with all four hyphens present. -/
def isCanonicalUuid (s : String) : Bool :=
  (match takeCount isLowerHexDigit 8 s.data with
  | none => false
  | some cs =>
  match expectHyphen cs with
  | none => false
  | some cs =>
  match takeCount isLowerHexDigit 4 cs with
  | none => false
  | some cs =>
  match expectHyphen cs with
  | none => false
  | some cs =>
  match takeCount isLowerHexDigit 4 cs with
  | none => false
  | some cs =>
  match expectHyphen cs with
  | none => false
  | some cs =>
  match takeCount isLowerHexDigit 4 cs with
  | none => false
  | some cs =>
  match expectHyphen cs with
  | none => false
  | some cs =>
  match takeCount isLowerHexDigit 12 cs with
  | none => false
  | some rest => rest.isEmpty)

/-- The client-controlled inputs `get_session_id_from_request` reads: the
`X-Session-ID` header and the `session_id` query parameter. -/
structure RequestSessionInputs where
  xSessionId : Option String
  sessionIdParam : Option String

/-- `session.get_session_id_from_request` (session.py lines 152-170):
header first, then query parameter, each used only when truthy and passing
`is_valid_session_id`; otherwise a freshly generated `str(uuid.uuid4())`
(passed in here as `freshUuid`, since generation is random). -/
def get_session_id_from_request (req : RequestSessionInputs)
    (freshUuid : String) : String :=
  if pyTruthy req.xSessionId && is_valid_session_id (req.xSessionId.getD "") then
    req.xSessionId.getD ""
  else if pyTruthy req.sessionIdParam &&
      is_valid_session_id (req.sessionIdParam.getD "") then
    req.sessionIdParam.getD ""
  else
    freshUuid

/-- Strip exactly one trailing newline, when the string ends in one. -/
def stripOneTrailingNewline (s : String) : Option String :=
  match s.data.reverse with
  | [] => none
  | c :: rest => if c = '\n' then some (String.mk rest.reverse) else none

/-- Identifier of a logical asyncio task (one per connection/request, plus
any children it spawns). -/
abbrev TaskId := Nat

/-- The per-task view of `context.current_session_token`: each task's context
maps the ContextVar to an optional token string (default `None`). -/
abbrev CtxState := TaskId → Option String

/-- One event against the Context facility (context.py lines 11-29, under
asyncio's task semantics): `setTok t v` is task `t` calling
`set_session_token(v)`; `clearTok t` is task `t` calling
`clear_session_token()` (which sets the var to `None`); `spawn p c` is task
`p` creating child task `c`, which snapshots (copies) the parent's context at
spawn time -- the documented `contextvars`/asyncio behaviour the module
relies on. -/
inductive CtxStep where
  | setTok (t : TaskId) (v : String)
  | clearTok (t : TaskId)
  | spawn (parent child : TaskId)

/-- Effect of one Context event: a set/clear mutates only the calling task's
own context; a spawn copies the parent's current binding into the child. -/
def applyCtxStep (σ : CtxState) : CtxStep → CtxState
  | .setTok t v => fun u => if u = t then some v else σ u
  | .clearTok t => fun u => if u = t then none else σ u
  | .spawn p c => fun u => if u = c then σ p else σ u

/-- Run a trace of interleaved Context events. -/
def runCtx (steps : List CtxStep) (σ : CtxState) : CtxState :=
  steps.foldl applyCtxStep σ

/-- `get_session_token()` executed in task `t` after the trace. -/
def get_session_token (steps : List CtxStep) (t : TaskId) : Option String :=
  runCtx steps (fun _ => none) t

/-- One step of the spawn-ancestry computation: a spawn passes the parent's
mark to the child; set/clear do not move marks between tasks. -/
def applyTaint (D : TaskId → Bool) : CtxStep → TaskId → Bool
  | .spawn p c => fun u => if u = c then D p else D u
  | _ => D

/-- Fold the spawn-ancestry marks along a trace. -/
def taintFold (steps : List CtxStep) (D : TaskId → Bool) : TaskId → Bool :=
  steps.foldl applyTaint D

/-- Tasks that may legitimately hold connection `B`'s token: `B` itself and
every task whose spawn ancestry reaches back to `B` (inheritance at spawn
time).  Computed alongside the trace. -/
def taintedBy (B : TaskId) (steps : List CtxStep) : TaskId → Bool :=
  taintFold steps (fun u => u == B)

/-- Every `set_session_token` of the value `tokB` in the trace is performed
by task `B` (connection `B` binds its own token; nobody else writes it). -/
def onlyBSetsTok (B : TaskId) (tokB : String) (steps : List CtxStep) : Bool :=
  steps.all fun s =>
    match s with
    | .setTok t v => v != tokB || t == B
    | _ => true

/-- Task `B` is a connection (root) task: it is never spawned as a child. -/
def neverSpawned (B : TaskId) (steps : List CtxStep) : Bool :=
  steps.all fun s =>
    match s with
    | .spawn _ c => c != B
    | _ => true

/-- The configuration fields the OAuth subsystem reads
(src/realize/config.py). -/
structure Config where
  mcp_server_url : String
  oauth_server_url : String
  oauth_dcr_client_id : Option String
  oauth_dcr_client_secret : Option String
  oauth_scopes : String
  oauth_refresh_buffer_seconds : Int
deriving Repr

/-- An HTTP response from the upstream token endpoint: status code,
`Content-Type` header value, the JSON decode of the body (`none` when
`response.json()` would raise), and the raw body text. -/
structure UpstreamResponse where
  status : Nat
  contentType : String
  jsonBody : Option Json
  text : String

/-- Outcome of `TokenProxy._post_token_request`: either an HTTP response or
an `httpx.RequestError` (connection-level transport failure). -/
inductive PostResult where
  | response (r : UpstreamResponse)
  | requestError (msg : String)

/-- Leading-match test for strings (`str.startswith`). -/
def strStartsWith (s pre : String) : Bool :=
  decide (List.IsPrefix pre.data s.data)

/-- Whether the first list is an initial run of the second. -/
def charsStartWith : List Char → List Char → Bool
  | [], _ => true
  | _ :: _, [] => false
  | a :: as, b :: bs => a = b && charsStartWith as bs

/-- Whether `needle` occurs as a contiguous run inside `hay`. -/
def charsContain (needle : List Char) : List Char → Bool
  | [] => needle.isEmpty
  | c :: cs => charsStartWith needle (c :: cs) || charsContain needle cs

/-- Python `s in t` for strings. -/
def strContains (hay needle : String) : Bool :=
  charsContain needle.data hay.data

/-- Python `key in j` for a decoded JSON value. -/
def pyContains (j : Json) (key : String) : Except PyError Bool :=
  match j with
  | .obj kvs => .ok ((keysOf kvs).contains key)
  | .arr xs => .ok (xs.any (fun x => x.eqStr key))
  | .str t => .ok (strContains t key)
  | _ => .error (.typeError "argument of type is not iterable")

/-- Pydantic coercion of a JSON value into a required `str` field. -/
def asStrField (v : Json) : Except PyError String :=
  match v with
  | .str s => .ok s
  | _ => .error (.valueError "Input should be a valid string")

/-- Pydantic coercion into an `Optional[str]` field. -/
def asOptStrField (v : Json) : Except PyError (Option String) :=
  match v with
  | .null => .ok none
  | .str s => .ok (some s)
  | _ => .error (.valueError "Input should be a valid string")

/-- Pydantic coercion into the `expires_in: int` field followed by the
`validate_expires_in` field validator (`expires_in must be positive`). -/
def asExpiresIn (v : Json) : Except PyError Int :=
  match v with
  | .num n => if n > 0 then .ok n else .error (.valueError "expires_in must be positive")
  | _ => .error (.valueError "Input should be a valid integer")

/-- `TokenProxy._create_token` (token.py lines 45-54): builds an
`OAuth21Token` from the decoded response body with `created_at = utc_now()`;
a missing `access_token` key raises `KeyError`, a non-dict body raises
`TypeError` (string/list indexing with a string key), and pydantic
validation failures raise `ValidationError` (a `ValueError`). -/
def create_token (tokenData : Json) (nowAware : Int) : Except PyError OAuth21Token :=
  match tokenData with
  | .obj kvs =>
      match (match listGet kvs "access_token" with
             | none => Except.error (PyError.keyError "access_token")
             | some v => asStrField v) with
      | .error e => .error e
      | .ok at0 =>
      match asStrField ((listGet kvs "token_type").getD (.str "Bearer")) with
      | .error e => .error e
      | .ok tt =>
      match asExpiresIn ((listGet kvs "expires_in").getD (.num 3600)) with
      | .error e => .error e
      | .ok ei =>
      match asOptStrField ((listGet kvs "refresh_token").getD .null) with
      | .error e => .error e
      | .ok rt =>
      match asOptStrField ((listGet kvs "scope").getD .null) with
      | .error e => .error e
      | .ok sc =>
          .ok { access_token := at0, token_type := tt, expires_in := ei,
                refresh_token := rt, scope := sc,
                created_at := some { aware := true, t := nowAware } }
  | _ => .error (.typeError "indices must be integers")

/-- The keyword arguments of `TokenProxy.exchange_token` (token.py lines
56-67), all typed `Optional[str]` in the source. -/
structure ExchangeArgs where
  grant_type : String
  code : Option String := none
  redirect_uri : Option String := none
  code_verifier : Option String := none
  refresh_token : Option String := none
  client_id : Option String := none
  client_secret : Option String := none
  scope : Option String := none

/-- Result of `exchange_token`: the returned token or raised exception, the
session store afterwards, and whether `_post_token_request` was reached. -/
structure ExchangeOut where
  res : Except PyError OAuth21Token
  store : Store
  networkCalled : Bool

/-- The local grant preconditions of `exchange_token` are satisfied (the
request passes the token.py lines 95-111 checks and reaches the network). -/
def grantArgsOk (a : ExchangeArgs) : Prop :=
  (a.grant_type = "authorization_code" ∧ pyTruthy a.code = true ∧
    pyTruthy a.redirect_uri = true) ∨
  (a.grant_type = "refresh_token" ∧ pyTruthy a.refresh_token = true)

/-- The form payload `exchange_token` sends upstream (token.py lines 88-117):
grant fields plus `client_id`/`client_secret` defaulted from configuration,
with `None` values removed. -/
def exchangeFormData (cfg : Config) (a : ExchangeArgs) : List (String × String) :=
  (([("grant_type", some a.grant_type),
     ("client_id", pyOrOpt a.client_id cfg.oauth_dcr_client_id),
     ("client_secret", pyOrOpt a.client_secret cfg.oauth_dcr_client_secret)]
    ++ (if a.grant_type = "authorization_code" then
          [("code", a.code), ("redirect_uri", a.redirect_uri)] ++
          (if pyTruthy a.code_verifier then [("code_verifier", a.code_verifier)] else [])
        else if a.grant_type = "refresh_token" then
          [("refresh_token", a.refresh_token)]
        else [])
    ++ (if pyTruthy a.scope then [("scope", a.scope)] else [])).filterMap
    (fun kv => kv.2.map (fun v => (kv.1, v))))

/-- The network phase of `exchange_token` (token.py lines 119-134): a
transport error becomes `TokenProxyError`; a non-200 response raises
`TokenProxyError` with the upstream `error_description`, else `error`, else
the raw text (the error body is JSON-decoded only when the `Content-Type`
starts with `application/json`; a body that then fails to decode raises
`json.JSONDecodeError`, a `ValueError`, and a decoded non-dict raises
`AttributeError` at `.get`); a 200 body is decoded, normalised by
`_create_token` and persisted via `set_token`. -/
def exchangeNetwork (maxSessions : Nat) (st : Store) (session_id : String)
    (_formData : List (String × String)) (upstream : PostResult)
    (nowAware : Int) : ExchangeOut :=
  match upstream with
  | .requestError m =>
      ⟨.error (.tokenProxyError ("Failed to connect to auth server: " ++ m)), st, true⟩
  | .response r =>
      if r.status ≠ 200 then
        if strStartsWith r.contentType "application/json" then
          match r.jsonBody with
          | none => ⟨.error (.valueError "Expecting value: line 1 column 1 (char 0)"), st, true⟩
          | some (.obj kvs) =>
              let errMsg :=
                match listGet kvs "error_description" with
                | some v => pyStr v
                | none =>
                    match listGet kvs "error" with
                    | some v => pyStr v
                    | none => r.text
              ⟨.error (.tokenProxyError ("Token exchange failed: " ++ errMsg)), st, true⟩
          | some _ => ⟨.error (.attributeError "object has no attribute get"), st, true⟩
        else
          ⟨.error (.tokenProxyError ("Token exchange failed: " ++ r.text)), st, true⟩
      else
        match r.jsonBody with
        | none => ⟨.error (.valueError "Expecting value: line 1 column 1 (char 0)"), st, true⟩
        | some tokenData =>
            match create_token tokenData nowAware with
            | .error e => ⟨.error e, st, true⟩
            | .ok tok =>
                ⟨.ok (stampToken tok session_id),
                 set_token maxSessions st session_id tok nowAware, true⟩

/-- `TokenProxy.exchange_token` (token.py lines 56-134): local grant
precondition checks (`ValueError`, before any network interaction), then the
network phase.  `upstream` is the outcome `_post_token_request` would
produce; `nowAware` is the `utc_now()` reading. -/
def exchange_token (cfg : Config) (maxSessions : Nat) (st : Store)
    (a : ExchangeArgs) (session_id : String) (upstream : PostResult)
    (nowAware : Int) : ExchangeOut :=
  if a.grant_type = "authorization_code" then
    if ¬ pyTruthy a.code then
      ⟨.error (.valueError "code required for authorization_code grant"), st, false⟩
    else if ¬ pyTruthy a.redirect_uri then
      ⟨.error (.valueError "redirect_uri required for authorization_code grant"), st, false⟩
    else exchangeNetwork maxSessions st session_id (exchangeFormData cfg a) upstream nowAware
  else if a.grant_type = "refresh_token" then
    if ¬ pyTruthy a.refresh_token then
      ⟨.error (.valueError "refresh_token required for refresh_token grant"), st, false⟩
    else exchangeNetwork maxSessions st session_id (exchangeFormData cfg a) upstream nowAware
  else
    ⟨.error (.valueError ("Unsupported grant_type: " ++ a.grant_type)), st, false⟩

/-- Result of `proxy_token_request`: the `(response_data, status_code)` pair
or the raised exception, plus the session store afterwards. -/
structure ProxyOut where
  res : Except PyError (Json × Nat)
  store : Store

/-- `TokenProxy.proxy_token_request` (token.py lines 136-176): forwards the
form data upstream; a transport error is caught and becomes a 502 body whose
`error_description` is `str(e)`; a body `response.json()` cannot decode
becomes a generic 502 body; otherwise the raw upstream body and status are
returned, and when the status is 200 and `"access_token" in token_data` the
normalised token is persisted under `session_id` first. -/
def proxy_token_request (maxSessions : Nat) (st : Store)
    (session_id : String) (upstream : PostResult) (nowAware : Int) : ProxyOut :=
  match upstream with
  | .requestError m =>
      ⟨.ok (.obj [("error", .str "server_error"), ("error_description", .str m)], 502), st⟩
  | .response r =>
      match r.jsonBody with
      | none =>
          ⟨.ok (.obj [("error", .str "server_error"),
                      ("error_description", .str "Invalid response from auth server")], 502), st⟩
      | some tokenData =>
          if r.status ≠ 200 then ⟨.ok (tokenData, r.status), st⟩
          else
            match pyContains tokenData "access_token" with
            | .error e => ⟨.error e, st⟩
            | .ok false => ⟨.ok (tokenData, r.status), st⟩
            | .ok true =>
                match create_token tokenData nowAware with
                | .error e => ⟨.error e, st⟩
                | .ok tok =>
                    ⟨.ok (tokenData, r.status),
                     set_token maxSessions st session_id tok nowAware⟩

/-- Outcome of `await request.form()` in the token route handler. -/
inductive FormParse where
  | parsed (formData : List (String × String))
  | failed

/-- The `token_handler` closure made by `create_token_handler` (routes.py
lines 69-103).  When form parsing fails it returns a 400 body; otherwise it
invokes `token_proxy.proxy_token_request(form_data=form_data)` -- omitting
the required `session_id` parameter of `TokenProxy.proxy_token_request`
(token.py line 136), so Python raises `TypeError` at the call site and the
exception escapes the handler. -/
def token_handler (formReq : FormParse) : Except PyError (Json × Nat) :=
  match formReq with
  | .failed =>
      .ok (.obj [("error", .str "invalid_request"),
                 ("error_description", .str "Invalid form data")], 400)
  | .parsed _ =>
      .error (.typeError "proxy_token_request missing 1 required positional argument session_id")

/-- Result of `ensure_valid_token`: the returned token-or-`None` (or raised
exception), the store afterwards, and whether a refresh exchange was
attempted. -/
structure RefreshOut where
  res : Except PyError (Option OAuth21Token)
  store : Store
  exchangeAttempted : Bool

/-- `TokenRefresher.ensure_valid_token` (refresh.py lines 27-70): look up the
session token (absent: return `None`); return it unchanged when not expired
within the configured buffer; otherwise refresh through
`exchange_token` when a truthy `refresh_token` exists, deleting the session
and returning `None` when the exchange raises `TokenProxyError` or
`ValueError` (any other exception propagates); with no refresh token, delete
the session and return `None`. -/
def ensure_valid_token (cfg : Config) (maxSessions : Nat) (st : Store)
    (session_id : String) (upstream : PostResult) (nowNaive nowAware : Int) :
    RefreshOut :=
  match get_token st session_id nowAware with
  | (none, st1) => ⟨.ok none, st1, false⟩
  | (some token, st1) =>
      if ¬ is_expired token nowNaive nowAware cfg.oauth_refresh_buffer_seconds then
        ⟨.ok (some token), st1, false⟩
      else if pyTruthy token.refresh_token then
        let out := exchange_token cfg maxSessions st1
          { grant_type := "refresh_token", refresh_token := token.refresh_token }
          session_id upstream nowAware
        match out.res with
        | .ok newTok => ⟨.ok (some newTok), out.store, true⟩
        | .error (.tokenProxyError _) => ⟨.ok none, delete_session out.store session_id, true⟩
        | .error (.valueError _) => ⟨.ok none, delete_session out.store session_id, true⟩
        | .error e => ⟨.error e, out.store, true⟩
      else
        ⟨.ok none, delete_session st1 session_id, false⟩

/-- The list comprehension `[m for m in methods if m != "none"]`
(metadata.py lines 54-57) on an arbitrary decoded JSON value: iterates list
elements, a string's characters, or a dict's keys; non-iterable values raise
`TypeError`. -/
def pyIterFilterNeNone (v : Json) : Except PyError Json :=
  match v with
  | .arr xs => .ok (.arr (xs.filter (fun x => !(x.eqStr "none"))))
  | .str t =>
      .ok (.arr ((t.data.map (fun c => Json.str (String.mk [c]))).filter
        (fun x => !(x.eqStr "none"))))
  | .obj kvs =>
      .ok (.arr ((kvs.map (fun kv => Json.str kv.1)).filter
        (fun x => !(x.eqStr "none"))))
  | _ => .error (.typeError "argument of type is not iterable")

/-- `metadata.proxy_authorization_server_metadata` (metadata.py lines
31-69): fetch the upstream document (transport errors, non-2xx statuses via
`raise_for_status`, and undecodable bodies all raise); filter `"none"` out of
`token_endpoint_auth_methods_supported` when the key is present; then point
`registration_endpoint`, `token_endpoint` and `authorization_endpoint` at the
MCP server's own URL.  Item assignment on a non-dict document raises
`TypeError`. -/
def proxy_authorization_server_metadata (cfg : Config) (fetch : PostResult) :
    Except PyError Json :=
  match fetch with
  | .requestError m => .error (.requestException m)
  | .response r =>
      if ¬ (200 ≤ r.status ∧ r.status < 300) then .error (.httpStatusError r.status)
      else
        match r.jsonBody with
        | none => .error (.valueError "Expecting value: line 1 column 1 (char 0)")
        | some metadata =>
            match metadata with
            | .obj kvs => do
                let kvs1 ←
                  if (keysOf kvs).contains "token_endpoint_auth_methods_supported" then do
                    let v := (listGet kvs "token_endpoint_auth_methods_supported").getD .null
                    let fv ← pyIterFilterNeNone v
                    pure (listSet kvs "token_endpoint_auth_methods_supported" fv)
                  else pure kvs
                pure (.obj
                  (listSet (listSet (listSet kvs1
                    "registration_endpoint" (.str (cfg.mcp_server_url ++ "/register")))
                    "token_endpoint" (.str (cfg.mcp_server_url ++ "/oauth/token")))
                    "authorization_endpoint" (.str (cfg.mcp_server_url ++ "/authorize"))))
            | _ => .error (.typeError "object does not support item assignment")

/-- `str(e)` for the exceptions the metadata handler can catch. -/
def pyErrMessage : PyError → String
  | .valueError m => m
  | .tokenProxyError m => m
  | .typeError m => m
  | .keyError m => m
  | .attributeError m => m
  | .requestException m => m
  | .httpStatusError s => "HTTP status error " ++ toString s

/-- `routes.authorization_server_metadata_handler` (routes.py lines 40-49):
returns the proxied document, or -- on any exception -- a 502 response with
an `upstream_error` body. -/
def authorization_server_metadata_handler (cfg : Config) (fetch : PostResult) :
    Json × Nat :=
  match proxy_authorization_server_metadata cfg fetch with
  | .ok md => (md, 200)
  | .error e =>
      (.obj [("error", .str "upstream_error"),
             ("error_description", .str (pyErrMessage e))], 502)

/-- The `echoed_fields` list of `dcr.handle_client_registration` (dcr.py
lines 46-62). -/
def echoedFields : List String :=
  ["redirect_uris", "client_name", "client_uri", "logo_uri", "scope",
   "contacts", "tos_uri", "policy_uri", "jwks_uri", "jwks", "software_id",
   "software_version", "grant_types", "response_types",
   "token_endpoint_auth_method"]

/-- The `defaults` dict of `dcr.handle_client_registration` (dcr.py lines
32-36). -/
def dcrDefaults : List (String × Json) :=
  [("grant_types", .arr [.str "authorization_code"]),
   ("response_types", .arr [.str "code"]),
   ("token_endpoint_auth_method", .str "client_secret_post")]

/-- One iteration of the `for field in echoed_fields` loop (dcr.py lines
64-68): echo the client's value, else substitute the default, else leave the
response untouched. -/
def dcrEchoStep (requestData : List (String × Json))
    (resp : List (String × Json)) (fieldName : String) : List (String × Json) :=
  match listGet requestData fieldName with
  | some v => listSet resp fieldName v
  | none =>
      match listGet dcrDefaults fieldName with
      | some d => listSet resp fieldName d
      | none => resp

/-- `dcr.handle_client_registration` (dcr.py lines 13-70): raises `DCRError`
(the `Except.error` case, carrying the message) when either configured DCR
credential is falsy; otherwise returns configured credentials with
`client_id_issued_at = int(time.time())` and `client_secret_expires_at = 0`,
then echoes each field of `echoed_fields` from the request, falling back to
`defaults` when the caller omitted it. -/
def handle_client_registration (cfg : Config)
    (requestData : List (String × Json)) (now : Int) :
    Except String (List (String × Json)) :=
  if ¬ (pyTruthy cfg.oauth_dcr_client_id ∧ pyTruthy cfg.oauth_dcr_client_secret) then
    .error "DCR credentials not configured. Set OAUTH_DCR_CLIENT_ID and OAUTH_DCR_CLIENT_SECRET environment variables."
  else
    .ok (echoedFields.foldl (dcrEchoStep requestData)
      [("client_id", .str (cfg.oauth_dcr_client_id.getD "")),
       ("client_secret", .str (cfg.oauth_dcr_client_secret.getD "")),
       ("client_id_issued_at", .num now),
       ("client_secret_expires_at", .num 0)])

/-- Outcome of `await request.json()` in the registration route handler. -/
inductive BodyParse where
  | parsed (body : List (String × Json))
  | failed

/-- `routes.register_handler` (routes.py lines 52-66): an unparsable body
becomes `{}`; a successful registration is returned with status 201; a
`DCRError` becomes a 400 `invalid_request` body. -/
def register_handler (cfg : Config) (b : BodyParse) (now : Int) : Json × Nat :=
  let body := match b with | .parsed kvs => kvs | .failed => []
  match handle_client_registration cfg body now with
  | .ok resp => (.obj resp, 201)
  | .error m =>
      (.obj [("error", .str "invalid_request"), ("error_description", .str m)], 400)

/-- A concrete token value used when instantiating theorems. -/
def sampleToken : OAuth21Token :=
  { access_token := "atok", expires_in := 3600 }

/-- A concrete stored session used when instantiating theorems. -/
def sampleSession : SessionData :=
  { token := sampleToken, created_at := 0, last_accessed := 0 }

/-- A concrete configuration used when instantiating theorems. -/
def sampleConfig : Config :=
  { mcp_server_url := "https://mcp.example.com"
    oauth_server_url := "http://auth.internal"
    oauth_dcr_client_id := some "cid"
    oauth_dcr_client_secret := some "csec"
    oauth_scopes := "all"
    oauth_refresh_buffer_seconds := 60 }

/-- A concrete token that is expired at the times used in theorem
instantiations and that carries a refresh token. -/
def expiredRefreshToken : OAuth21Token :=
  { access_token := "old"
    expires_in := 10
    refresh_token := some "rt"
    created_at := some { aware := true, t := 0 } }

/-- A concrete one-session store holding `expiredRefreshToken`. -/
def expiredStore : Store :=
  [("sid1", { token := expiredRefreshToken, created_at := 0, last_accessed := 0 })]

/-- A concrete token that is still valid at the times used in theorem
instantiations. -/
def freshSessionToken : OAuth21Token :=
  { access_token := "fresh"
    expires_in := 3600
    created_at := some { aware := true, t := 0 } }

/-- A concrete one-session store holding `freshSessionToken`. -/
def freshStore : Store :=
  [("sid2", { token := freshSessionToken, created_at := 0, last_accessed := 0 })]

section AssocListLemmas

variable {α : Type}

theorem keysOf_nil : keysOf ([] : List (String × α)) = [] := rfl

theorem keysOf_cons (p : String × α) (rest : List (String × α)) :
    keysOf (p :: rest) = p.1 :: keysOf rest := rfl

theorem listGet_eq_none_iff (l : List (String × α)) (k : String) :
    listGet l k = none ↔ k ∉ keysOf l := by
  induction l with
  | nil => simp [listGet, keysOf_nil]
  | cons p rest ih =>
      obtain ⟨k0, v0⟩ := p
      rw [keysOf_cons]
      by_cases h : k0 = k
      · subst h
        simp [listGet]
      · rw [listGet, if_neg h, ih]
        simp only [List.mem_cons, not_or]
        constructor
        · intro hk
          exact ⟨fun h2 => h h2.symm, hk⟩
        · intro hk
          exact hk.2

theorem listGet_isSome_iff (l : List (String × α)) (k : String) :
    (listGet l k).isSome = true ↔ k ∈ keysOf l := by
  rw [← Decidable.not_iff_not, ← listGet_eq_none_iff (l := l)]
  cases listGet l k <;> simp

theorem listGet_listSet_self (l : List (String × α)) (k : String) (v : α) :
    listGet (listSet l k v) k = some v := by
  induction l with
  | nil => simp [listGet, listSet]
  | cons p rest ih =>
      obtain ⟨k0, v0⟩ := p
      by_cases h : k0 = k <;> simp [listGet, listSet, h, ih]

theorem listGet_listSet_ne (l : List (String × α)) (k k' : String) (v : α)
    (h : k' ≠ k) : listGet (listSet l k v) k' = listGet l k' := by
  have hne : ¬ (k = k') := fun h2 => h h2.symm
  induction l with
  | nil => simp [listGet, listSet, hne]
  | cons p rest ih =>
      obtain ⟨k0, v0⟩ := p
      by_cases h0 : k0 = k
      · subst h0
        simp [listGet, listSet, hne]
      · by_cases h1 : k0 = k'
        · subst h1
          rw [listSet, if_neg h0, listGet, listGet, if_pos rfl, if_pos rfl]
        · rw [listSet, if_neg h0, listGet, listGet, if_neg h1, if_neg h1]
          exact ih

theorem keysOf_listSet_mem (l : List (String × α)) (k : String) (v : α)
    (h : k ∈ keysOf l) : keysOf (listSet l k v) = keysOf l := by
  induction l with
  | nil => simp [keysOf_nil] at h
  | cons p rest ih =>
      obtain ⟨k0, v0⟩ := p
      by_cases h0 : k0 = k
      · subst h0
        simp [listSet, keysOf_cons]
      · have hmem : k ∈ keysOf rest := by
          rw [keysOf_cons] at h
          rcases List.mem_cons.mp h with h2 | h2
          · exact absurd h2.symm h0
          · exact h2
        simp [listSet, keysOf_cons, h0, ih hmem]

theorem keysOf_listSet_notmem (l : List (String × α)) (k : String) (v : α)
    (h : k ∉ keysOf l) : keysOf (listSet l k v) = keysOf l ++ [k] := by
  induction l with
  | nil => simp [listSet, keysOf_nil, keysOf_cons]
  | cons p rest ih =>
      obtain ⟨k0, v0⟩ := p
      rw [keysOf_cons] at h
      simp only [List.mem_cons, not_or] at h
      have h0 : ¬ (k0 = k) := fun h2 => h.1 h2.symm
      simp [listSet, keysOf_cons, h0, ih h.2]

theorem nodup_keysOf_listSet (l : List (String × α)) (k : String) (v : α)
    (h : (keysOf l).Nodup) : (keysOf (listSet l k v)).Nodup := by
  by_cases hm : k ∈ keysOf l
  · rw [keysOf_listSet_mem l k v hm]; exact h
  · rw [keysOf_listSet_notmem l k v hm]
    simp [List.nodup_append, h, hm]

theorem length_keysOf (l : List (String × α)) : (keysOf l).length = l.length := by
  simp [keysOf]

theorem length_listSet_mem (l : List (String × α)) (k : String) (v : α)
    (h : k ∈ keysOf l) : (listSet l k v).length = l.length := by
  have h2 := congrArg List.length (keysOf_listSet_mem l k v h)
  rwa [length_keysOf, length_keysOf] at h2

theorem length_listSet_notmem (l : List (String × α)) (k : String) (v : α)
    (h : k ∉ keysOf l) : (listSet l k v).length = l.length + 1 := by
  have h2 := congrArg List.length (keysOf_listSet_notmem l k v h)
  rw [length_keysOf, List.length_append, length_keysOf] at h2
  simpa using h2

theorem listErase_notmem (l : List (String × α)) (k : String)
    (h : k ∉ keysOf l) : listErase l k = l := by
  induction l with
  | nil => simp [listErase]
  | cons p rest ih =>
      obtain ⟨k0, v0⟩ := p
      rw [keysOf_cons] at h
      simp only [List.mem_cons, not_or] at h
      have h0 : ¬ (k0 = k) := fun h2 => h.1 h2.symm
      simp [listErase, h0, ih h.2]

theorem length_listErase_mem (l : List (String × α)) (k : String)
    (h : k ∈ keysOf l) : (listErase l k).length + 1 = l.length := by
  induction l with
  | nil => simp [keysOf_nil] at h
  | cons p rest ih =>
      obtain ⟨k0, v0⟩ := p
      by_cases h0 : k0 = k
      · simp [listErase, h0]
      · have hmem : k ∈ keysOf rest := by
          rw [keysOf_cons] at h
          rcases List.mem_cons.mp h with h2 | h2
          · exact absurd h2.symm h0
          · exact h2
        simp [listErase, h0, ih hmem]

theorem keysOf_listErase_subset (l : List (String × α)) (k k' : String)
    (h : k' ∈ keysOf (listErase l k)) : k' ∈ keysOf l := by
  induction l with
  | nil => simp [listErase, keysOf_nil] at h
  | cons p rest ih =>
      obtain ⟨k0, v0⟩ := p
      rw [keysOf_cons]
      by_cases h0 : k0 = k
      · rw [listErase] at h
        simp only [h0, if_pos rfl] at h
        exact List.mem_cons.mpr (Or.inr h)
      · rw [listErase] at h
        simp only [h0, if_neg h0, keysOf_cons] at h
        rcases List.mem_cons.mp h with h2 | h2
        · exact List.mem_cons.mpr (Or.inl h2)
        · exact List.mem_cons.mpr (Or.inr (ih h2))

theorem nodup_keysOf_listErase (l : List (String × α)) (k : String)
    (h : (keysOf l).Nodup) : (keysOf (listErase l k)).Nodup := by
  induction l with
  | nil => simp [listErase, keysOf_nil]
  | cons p rest ih =>
      obtain ⟨k0, v0⟩ := p
      rw [keysOf_cons] at h
      rw [List.nodup_cons] at h
      by_cases h0 : k0 = k
      · rw [listErase]
        simp only [h0, if_pos rfl]
        exact h.2
      · rw [listErase]
        simp only [if_neg h0, keysOf_cons, List.nodup_cons]
        exact ⟨fun hm => h.1 (keysOf_listErase_subset rest k k0 hm), ih h.2⟩

theorem listGet_listErase_self (l : List (String × α)) (k : String)
    (h : (keysOf l).Nodup) : listGet (listErase l k) k = none := by
  induction l with
  | nil => simp [listErase, listGet]
  | cons p rest ih =>
      obtain ⟨k0, v0⟩ := p
      rw [keysOf_cons, List.nodup_cons] at h
      by_cases h0 : k0 = k
      · subst h0
        rw [listErase]
        simp only [if_pos rfl]
        exact (listGet_eq_none_iff rest k0).mpr h.1
      · rw [listErase]
        simp only [if_neg h0, listGet]
        exact ih h.2

theorem listGet_listErase_ne (l : List (String × α)) (k k' : String)
    (h : k' ≠ k) : listGet (listErase l k) k' = listGet l k' := by
  induction l with
  | nil => simp [listErase]
  | cons p rest ih =>
      obtain ⟨k0, v0⟩ := p
      by_cases h0 : k0 = k
      · rw [listErase, if_pos h0]
        have h2 : listGet ((k0, v0) :: rest) k' = listGet rest k' := by
          rw [listGet, if_neg (fun h3 : k0 = k' => h (h3 ▸ h0))]
        rw [h2]
      · rw [listErase]
        simp only [if_neg h0, listGet]
        by_cases h1 : k0 = k'
        · rw [if_pos h1, if_pos h1]
        · rw [if_neg h1, if_neg h1]
          exact ih

end AssocListLemmas

theorem argminLast_mem_and_min (st : Store) (m : String × SessionData)
    (h : argminLast st = some m) :
    m ∈ st ∧ ∀ p ∈ st, m.2.last_accessed ≤ p.2.last_accessed := by
  induction st generalizing m with
  | nil => simp [argminLast] at h
  | cons p rest ih =>
      rw [argminLast] at h
      cases hrest : argminLast rest with
      | none =>
          rw [hrest] at h
          cases rest with
          | nil =>
              simp at h
              subst h
              simp
          | cons q rest2 =>
              rw [argminLast] at hrest
              cases h2 : argminLast rest2 with
              | none => rw [h2] at hrest; simp at hrest
              | some r2 => rw [h2] at hrest; simp at hrest
      | some q =>
          rw [hrest] at h
          simp at h
          obtain ⟨hq, hmin⟩ := ih q hrest
          by_cases hlt : q.2.last_accessed < p.2.last_accessed
          · rw [if_pos hlt] at h
            subst h
            refine ⟨List.mem_cons.mpr (Or.inr hq), ?_⟩
            intro r hr
            rcases List.mem_cons.mp hr with hr2 | hr2
            · subst hr2; exact le_of_lt hlt
            · exact hmin r hr2
          · rw [if_neg hlt] at h
            subst h
            refine ⟨List.mem_cons.mpr (Or.inl rfl), ?_⟩
            intro r hr
            rcases List.mem_cons.mp hr with hr2 | hr2
            · subst hr2; exact le_refl _
            · exact le_trans (le_of_not_lt hlt) (hmin r hr2)

theorem argminLast_isSome (st : Store) (h : st ≠ []) :
    ∃ m, argminLast st = some m := by
  cases st with
  | nil => exact absurd rfl h
  | cons p rest =>
      rw [argminLast]
      cases argminLast rest with
      | none => exact ⟨p, rfl⟩
      | some q => exact ⟨_, rfl⟩

/-- Well-formedness of the session dict: keys are unique. -/
def storeWF (st : Store) : Prop := (keysOf st).Nodup

theorem mem_keysOf_of_mem {st : Store} {p : String × SessionData}
    (h : p ∈ st) : p.1 ∈ keysOf st :=
  List.mem_map_of_mem Prod.fst h

/-- A `set_token` call that inserts a fresh session id into a full store
evicts exactly one entry -- one whose `last_accessed` is minimal -- and
leaves the store at exactly `N` entries, with every other session still
present and the new session stored. -/
theorem set_token_eviction (N : Nat) (st : Store) (sid : String)
    (tok : OAuth21Token) (now : Int) (hwf : storeWF st) (hlen : st.length = N)
    (hN : 1 ≤ N) (hget : listGet st sid = none) :
    (set_token N st sid tok now).length = N ∧
    ∃ ev, (ev ∈ st ∧ ∀ p ∈ st, ev.2.last_accessed ≤ p.2.last_accessed) ∧
      listGet (set_token N st sid tok now) ev.1 = none ∧
      (∀ k, k ∈ keysOf st → k ≠ ev.1 →
        listGet (set_token N st sid tok now) k = listGet st k ∧
        k ∈ keysOf (set_token N st sid tok now)) ∧
      listGet (set_token N st sid tok now) sid =
        some { token := stampToken tok sid, created_at := now, last_accessed := now } := by
  have hne : st ≠ [] := by
    intro h
    rw [h] at hlen
    simp at hlen
    omega
  obtain ⟨m, hm⟩ := argminLast_isSome st hne
  obtain ⟨hmem, hmin⟩ := argminLast_mem_and_min st m hm
  have hsidnot : sid ∉ keysOf st := (listGet_eq_none_iff st sid).mp hget
  have hmkey : m.1 ∈ keysOf st := mem_keysOf_of_mem hmem
  have hsidne : sid ≠ m.1 := fun h => hsidnot (h ▸ hmkey)
  have hcond : (listGet st sid).isNone = true ∧ st.length ≥ N := by
    constructor
    · rw [hget]; rfl
    · omega
  have hst' : set_token N st sid tok now =
      listSet (listErase st m.1) sid
        { token := stampToken tok sid, created_at := now, last_accessed := now } := by
    rw [set_token]
    simp only [if_pos hcond, hm]
  have hsidnot2 : sid ∉ keysOf (listErase st m.1) :=
    fun h => hsidnot (keysOf_listErase_subset st m.1 sid h)
  constructor
  · rw [hst', length_listSet_notmem _ _ _ hsidnot2]
    have := length_listErase_mem st m.1 hmkey
    omega
  · refine ⟨m, ⟨hmem, hmin⟩, ?_, ?_, ?_⟩
    · rw [hst', listGet_listSet_ne _ _ _ _ (fun h => hsidne h.symm)]
      exact listGet_listErase_self st m.1 hwf
    · intro k hk hkne
      have hksid : k ≠ sid := fun h => hsidnot (h ▸ hk)
      have h1 : listGet (set_token N st sid tok now) k = listGet st k := by
        rw [hst', listGet_listSet_ne _ _ _ _ hksid, listGet_listErase_ne _ _ _ hkne]
      refine ⟨h1, ?_⟩
      rw [← listGet_isSome_iff, h1, listGet_isSome_iff]
      exact hk
    · rw [hst']
      exact listGet_listSet_self _ _ _

/-- Every single Session Store operation preserves key uniqueness and the
capacity bound. -/
theorem applyOp_preserves (N : Nat) (hN : 1 ≤ N) (st : Store)
    (hwf : storeWF st) (hlen : st.length ≤ N) (op : StoreOp) :
    storeWF (applyOp N st op) ∧ (applyOp N st op).length ≤ N := by
  cases op with
  | getTok sid now =>
      rw [applyOp, get_token]
      cases hget : listGet st sid with
      | none => exact ⟨hwf, hlen⟩
      | some sd =>
          have hmem : sid ∈ keysOf st := by
            rw [← listGet_isSome_iff, hget]; rfl
          constructor
          · exact nodup_keysOf_listSet st sid _ hwf
          · rw [length_listSet_mem st sid _ hmem]
            exact hlen
  | setTok sid tok now =>
      rw [applyOp, set_token]
      by_cases hc : (listGet st sid).isNone = true ∧ st.length ≥ N
      · rw [if_pos hc]
        have hne : st ≠ [] := by
          intro h
          rw [h] at hc
          simp at hc
          omega
        obtain ⟨m, hm⟩ := argminLast_isSome st hne
        rw [hm]
        have hmkey : m.1 ∈ keysOf st :=
          mem_keysOf_of_mem (argminLast_mem_and_min st m hm).1
        have hsidnot : sid ∉ keysOf st := by
          rw [← listGet_eq_none_iff]
          cases h2 : listGet st sid with
          | none => rfl
          | some sd => rw [h2] at hc; simp at hc
        have hsidnot2 : sid ∉ keysOf (listErase st m.1) :=
          fun h => hsidnot (keysOf_listErase_subset st m.1 sid h)
        constructor
        · exact nodup_keysOf_listSet _ sid _ (nodup_keysOf_listErase st m.1 hwf)
        · rw [length_listSet_notmem _ _ _ hsidnot2]
          have := length_listErase_mem st m.1 hmkey
          omega
      · rw [if_neg hc]
        by_cases hmem : sid ∈ keysOf st
        · constructor
          · exact nodup_keysOf_listSet st sid _ hwf
          · rw [length_listSet_mem st sid _ hmem]
            exact hlen
        · have hlt : st.length < N := by
            rcases Decidable.not_and_iff_or_not.mp hc with h2 | h2
            · exfalso
              apply h2
              rw [← listGet_eq_none_iff] at hmem
              rw [hmem]
              rfl
            · omega
          constructor
          · exact nodup_keysOf_listSet st sid _ hwf
          · rw [length_listSet_notmem st sid _ hmem]
            omega
  | delSession sid =>
      rw [applyOp, delete_session]
      constructor
      · exact nodup_keysOf_listErase st sid hwf
      · by_cases hmem : sid ∈ keysOf st
        · have := length_listErase_mem st sid hmem
          omega
        · rw [listErase_notmem st sid hmem]
          exact hlen
  | cleanup maxAge now =>
      rw [applyOp, cleanup_expired]
      have hsub : (st.filter
          (fun p => ¬ decide (now - p.2.last_accessed > maxAge))).Sublist st :=
        List.filter_sublist st
      constructor
      · exact List.Nodup.sublist (hsub.map Prod.fst) hwf
      · exact le_trans hsub.length_le hlen
  | findByTok accessTok now =>
      rw [applyOp]
      have hkeys : ∀ (l : Store) (tk : String) (n : Int),
          keysOf (find_session_by_token l tk n).2 = keysOf l := by
        intro l tk n
        induction l with
        | nil => rfl
        | cons p rest ih =>
            obtain ⟨k0, sd0⟩ := p
            rw [find_session_by_token]
            by_cases h2 : sd0.token.access_token = tk
            · rw [if_pos h2]
              rfl
            · rw [if_neg h2]
              simp only [keysOf_cons]
              rw [ih]
      have hlen2 : ∀ (l : Store) (tk : String) (n : Int),
          (find_session_by_token l tk n).2.length = l.length := by
        intro l tk n
        have := congrArg List.length (hkeys l tk n)
        rwa [length_keysOf, length_keysOf] at this
      constructor
      · rw [storeWF, hkeys]
        exact hwf
      · rw [hlen2]
        exact hlen

/-- Any operation sequence from the empty store keeps keys unique and the
size within capacity. -/
theorem runOps_invariant (N : Nat) (hN : 1 ≤ N) (ops : List StoreOp) :
    storeWF (runOps N ops) ∧ (runOps N ops).length ≤ N := by
  suffices h : ∀ (st : Store), storeWF st → st.length ≤ N →
      storeWF (ops.foldl (applyOp N) st) ∧ (ops.foldl (applyOp N) st).length ≤ N by
    exact h [] (by simp [storeWF, keysOf_nil]) (by simp)
  induction ops with
  | nil => intro st hwf hlen; exact ⟨hwf, hlen⟩
  | cons op rest ih =>
      intro st hwf hlen
      rw [List.foldl_cons]
      obtain ⟨hwf2, hlen2⟩ := applyOp_preserves N hN st hwf hlen op
      exact ih _ hwf2 hlen2

/-- C3: for every sequence of Session Store operations starting from an
empty `InMemorySessionManager` with capacity `N ≥ 1`, the number of stored
sessions never exceeds `N`; and every `set_token` that inserts a new session
id while exactly `N` sessions are stored removes exactly one existing
session -- one with the smallest `last_accessed` timestamp -- leaving the
store at exactly `N` sessions, with all other sessions untouched and the new
session present. -/
theorem C3_store_capacity_and_lru_eviction :
    (∀ (N : Nat) (ops : List StoreOp), 1 ≤ N → (runOps N ops).length ≤ N) ∧
    (∀ (N : Nat) (st : Store) (sid : String) (tok : OAuth21Token) (now : Int),
      storeWF st → st.length = N → 1 ≤ N → listGet st sid = none →
      (set_token N st sid tok now).length = N ∧
      ∃ ev, (ev ∈ st ∧ ∀ p ∈ st, ev.2.last_accessed ≤ p.2.last_accessed) ∧
        listGet (set_token N st sid tok now) ev.1 = none ∧
        (∀ k, k ∈ keysOf st → k ≠ ev.1 →
          listGet (set_token N st sid tok now) k = listGet st k ∧
          k ∈ keysOf (set_token N st sid tok now)) ∧
        listGet (set_token N st sid tok now) sid =
          some { token := stampToken tok sid, created_at := now, last_accessed := now }) := by
  constructor
  · intro N ops hN
    exact (runOps_invariant N hN ops).2
  · intro N st sid tok now hwf hlen hN hget
    exact set_token_eviction N st sid tok now hwf hlen hN hget

/-- Witness for C3 at concrete inputs: two insertions into a store of
capacity 1, and an eviction step on a concrete full store. -/
theorem C3_store_capacity_and_lru_eviction_witness :
    (runOps 1 [.setTok "aa" sampleToken 0, .setTok "bb" sampleToken 1]).length ≤ 1 ∧
    ((set_token 1 [("aa", sampleSession)] "bb" sampleToken 5).length = 1 ∧
     ∃ ev, (ev ∈ [("aa", sampleSession)] ∧
         ∀ p ∈ [("aa", sampleSession)], ev.2.last_accessed ≤ p.2.last_accessed) ∧
       listGet (set_token 1 [("aa", sampleSession)] "bb" sampleToken 5) ev.1 = none ∧
       (∀ k, k ∈ keysOf [("aa", sampleSession)] → k ≠ ev.1 →
         listGet (set_token 1 [("aa", sampleSession)] "bb" sampleToken 5) k =
           listGet [("aa", sampleSession)] k ∧
         k ∈ keysOf (set_token 1 [("aa", sampleSession)] "bb" sampleToken 5)) ∧
       listGet (set_token 1 [("aa", sampleSession)] "bb" sampleToken 5) "bb" =
         some { token := stampToken sampleToken "bb", created_at := 5, last_accessed := 5 }) :=
  ⟨C3_store_capacity_and_lru_eviction.1 1
      [.setTok "aa" sampleToken 0, .setTok "bb" sampleToken 1] (by decide),
   C3_store_capacity_and_lru_eviction.2 1 [("aa", sampleSession)] "bb" sampleToken 5
      (by show (keysOf [("aa", sampleSession)]).Nodup; decide)
      rfl (by decide) rfl⟩

theorem runCtx_cons (s : CtxStep) (steps : List CtxStep) (σ : CtxState) :
    runCtx (s :: steps) σ = runCtx steps (applyCtxStep σ s) := rfl

theorem taintFold_cons (s : CtxStep) (steps : List CtxStep) (D : TaskId → Bool) :
    taintFold (s :: steps) D = taintFold steps (applyTaint D s) := rfl

/-- The taint invariant: along any trace in which only `B` sets `tokB` and
`B` is never re-spawned, any task whose context holds `tokB` carries the
spawn-ancestry mark of `B`. -/
theorem ctx_isolation_invariant (B : TaskId) (tokB : String) :
    ∀ (steps : List CtxStep), onlyBSetsTok B tokB steps = true →
      neverSpawned B steps = true →
      ∀ (σ : CtxState) (D : TaskId → Bool), D B = true →
        (∀ u, σ u = some tokB → D u = true) →
        ∀ u, runCtx steps σ u = some tokB → taintFold steps D u = true := by
  intro steps
  induction steps with
  | nil =>
      intro _ _ σ D _ hinv u h
      exact hinv u h
  | cons s rest ih =>
      intro hset hspawn σ D hDB hinv u h
      rw [onlyBSetsTok, List.all_cons, Bool.and_eq_true] at hset
      rw [neverSpawned, List.all_cons, Bool.and_eq_true] at hspawn
      rw [runCtx_cons] at h
      rw [taintFold_cons]
      refine ih hset.2 hspawn.2 (applyCtxStep σ s) (applyTaint D s) ?_ ?_ u h
      · cases s with
        | setTok t v => exact hDB
        | clearTok t => exact hDB
        | spawn p c =>
            have hcB : c ≠ B := by
              have h3 := hspawn.1
              simp [bne] at h3
              exact h3
            simp only [applyTaint]
            rw [if_neg (fun h2 : B = c => hcB h2.symm)]
            exact hDB
      · intro w hw
        cases s with
        | setTok t v =>
            simp only [applyCtxStep] at hw
            by_cases hwt : w = t
            · rw [if_pos hwt] at hw
              have hv : v = tokB := by
                injection hw
              have ht : t = B := by
                have h3 := hset.1
                simp [bne] at h3
                rcases h3 with h2 | h2
                · exact absurd hv h2
                · exact h2
              show applyTaint D (.setTok t v) w = true
              simp only [applyTaint]
              rw [hwt, ht]
              exact hDB
            · rw [if_neg hwt] at hw
              exact hinv w hw
        | clearTok t =>
            simp only [applyCtxStep] at hw
            by_cases hwt : w = t
            · rw [if_pos hwt] at hw
              exact absurd hw (by simp)
            · rw [if_neg hwt] at hw
              exact hinv w hw
        | spawn p c =>
            simp only [applyCtxStep] at hw
            simp only [applyTaint]
            by_cases hwc : w = c
            · rw [if_pos hwc] at hw
              rw [if_pos hwc]
              exact hinv p hw
            · rw [if_neg hwc] at hw
              rw [if_neg hwc]
              exact hinv w hw

/-- C1: under the per-task Context semantics, (i) a task that is not `B` and
not a spawn-descendant of `B` never reads `B`'s token from the Context when
only `B` binds it; (ii) a child task inherits the parent's currently-bound
value at spawn time; (iii) a later set or clear by one task is invisible to
every other task. -/
theorem C1_context_isolation :
    (∀ (steps : List CtxStep) (A B : TaskId) (tokB : String),
      onlyBSetsTok B tokB steps = true →
      neverSpawned B steps = true →
      taintedBy B steps A = false →
      get_session_token steps A ≠ some tokB) ∧
    (∀ (steps : List CtxStep) (σ : CtxState) (p c : TaskId),
      runCtx (steps ++ [.spawn p c]) σ c = runCtx steps σ p) ∧
    (∀ (steps : List CtxStep) (σ : CtxState) (t u : TaskId) (v : String), u ≠ t →
      runCtx (steps ++ [.setTok t v]) σ u = runCtx steps σ u ∧
      runCtx (steps ++ [.clearTok t]) σ u = runCtx steps σ u) := by
  refine ⟨?_, ?_, ?_⟩
  · intro steps A B tokB hset hspawn htaint h
    have h2 := ctx_isolation_invariant B tokB steps hset hspawn
      (fun _ => none) (fun u => u == B) (by simp)
      (fun u h3 => by simp at h3) A h
    rw [taintedBy] at htaint
    rw [htaint] at h2
    exact Bool.false_ne_true h2
  · intro steps σ p c
    rw [runCtx, List.foldl_append]
    show applyCtxStep (runCtx steps σ) (.spawn p c) c = runCtx steps σ p
    simp only [applyCtxStep]
    simp
  · intro steps σ t u v hut
    constructor
    · rw [runCtx, List.foldl_append]
      show applyCtxStep (runCtx steps σ) (.setTok t v) u = runCtx steps σ u
      simp only [applyCtxStep]
      rw [if_neg hut]
    · rw [runCtx, List.foldl_append]
      show applyCtxStep (runCtx steps σ) (.clearTok t) u = runCtx steps σ u
      simp only [applyCtxStep]
      rw [if_neg hut]

/-- Witness for C1 on a concrete interleaved trace: connections 0 and 1 bind
distinct tokens, task 1 spawns child 2 which inherits and then clears; task 0
never observes connection 1's token, and the spawn/set/clear framing facts
hold at concrete tasks. -/
theorem C1_context_isolation_witness :
    get_session_token
        [.setTok 0 "tokA", .setTok 1 "tokB", .spawn 1 2, .clearTok 2] 0 ≠
      some "tokB" ∧
    runCtx ([.setTok 5 "x"] ++ [.spawn 5 6]) (fun _ => none) 6 =
      runCtx [.setTok 5 "x"] (fun _ => none) 5 ∧
    (runCtx ([] ++ [.setTok 4 "y"]) (fun _ => none) 3 =
      runCtx [] (fun _ => none) 3 ∧
     runCtx ([] ++ [.clearTok 4]) (fun _ => none) 3 =
      runCtx [] (fun _ => none) 3) :=
  ⟨C1_context_isolation.1
      [.setTok 0 "tokA", .setTok 1 "tokB", .spawn 1 2, .clearTok 2] 0 1 "tokB"
      (by decide) (by decide) (by decide),
   C1_context_isolation.2.1 [.setTok 5 "x"] (fun _ => none) 5 6,
   C1_context_isolation.2.2 [] (fun _ => none) 4 3 "y" (by decide)⟩

theorem lowerHex_le_hex (c : Char) (h : isLowerHexDigit c = true) :
    isHexDigit c = true := by
  rw [isLowerHexDigit] at h
  rw [isHexDigit]
  simp only [Bool.or_eq_true] at h ⊢
  tauto

theorem isHexDigit_ne_hyphen (c : Char) (h : isHexDigit c = true) : ¬ (c = '-') := by
  intro h2
  rw [h2] at h
  exact absurd h (by decide)

theorem takeCount_mono (p q : Char → Bool) (hpq : ∀ c, p c = true → q c = true) :
    ∀ (n : Nat) (cs rest : List Char), takeCount p n cs = some rest →
      takeCount q n cs = some rest := by
  intro n
  induction n with
  | zero => intro cs rest h; simpa [takeCount] using h
  | succ m ih =>
      intro cs rest h
      cases cs with
      | nil => rw [takeCount] at h; exact absurd h (by simp)
      | cons c cs' =>
          rw [takeCount] at h ⊢
          by_cases hc : p c = true
          · rw [if_pos hc] at h
            rw [if_pos (hpq c hc)]
            exact ih cs' rest h
          · rw [if_neg hc] at h
            exact absurd h (by simp)

theorem takeCount_split (p : Char → Bool) :
    ∀ (n : Nat) (cs rest : List Char), takeCount p n cs = some rest →
      ∃ pre, cs = pre ++ rest ∧ pre.length = n ∧ ∀ c ∈ pre, p c = true := by
  intro n
  induction n with
  | zero =>
      intro cs rest h
      rw [takeCount] at h
      injection h with h
      exact ⟨[], by simp [h], rfl, by simp⟩
  | succ m ih =>
      intro cs rest h
      cases cs with
      | nil => rw [takeCount] at h; exact absurd h (by simp)
      | cons c cs' =>
          rw [takeCount] at h
          by_cases hc : p c = true
          · rw [if_pos hc] at h
            obtain ⟨pre, heq, hlen, hall⟩ := ih cs' rest h
            refine ⟨c :: pre, by simp [heq], by simp [hlen], ?_⟩
            intro d hd
            rcases List.mem_cons.mp hd with h2 | h2
            · subst h2; exact hc
            · exact hall d h2
          · rw [if_neg hc] at h
            exact absurd h (by simp)

theorem takeCount_construct (p : Char → Bool) :
    ∀ (pre : List Char), (∀ c ∈ pre, p c = true) →
      ∀ (t : List Char), takeCount p pre.length (pre ++ t) = some t := by
  intro pre
  induction pre with
  | nil => intro _ t; rfl
  | cons c pre' ih =>
      intro hall t
      have hc : p c = true := hall c (List.mem_cons_self _ _)
      show takeCount p (pre'.length + 1) (c :: (pre' ++ t)) = some t
      rw [takeCount, if_pos hc]
      exact ih (fun d hd => hall d (List.mem_cons.mpr (Or.inr hd))) t

theorem skipTake_split (n : Nat) (hn : 1 ≤ n) (cs rest : List Char)
    (h : takeCount isHexDigit n (skipHyphen cs) = some rest) :
    ∃ pre, cs = pre ++ rest ∧
      ∀ t2, takeCount isHexDigit n (skipHyphen (pre ++ t2)) = some t2 := by
  cases cs with
  | nil =>
      rw [skipHyphen] at h
      obtain ⟨m, hm⟩ : ∃ m, n = m + 1 := ⟨n - 1, by omega⟩
      rw [hm, takeCount] at h
      exact absurd h (by simp)
  | cons c cs' =>
      rw [skipHyphen] at h
      by_cases hc : c = '-'
      · rw [if_pos hc] at h
        obtain ⟨pre1, heq, hlen, hall⟩ := takeCount_split isHexDigit n cs' rest h
        refine ⟨c :: pre1, by simp [heq], ?_⟩
        intro t2
        show takeCount isHexDigit n (skipHyphen (c :: (pre1 ++ t2))) = some t2
        rw [skipHyphen, if_pos hc, ← hlen]
        exact takeCount_construct isHexDigit pre1 hall t2
      · rw [if_neg hc] at h
        obtain ⟨pre1, heq, hlen, hall⟩ := takeCount_split isHexDigit n (c :: cs') rest h
        cases pre1 with
        | nil =>
            rw [← hlen] at hn
            simp at hn
        | cons d pre1' =>
            refine ⟨d :: pre1', heq, ?_⟩
            intro t2
            have hd : isHexDigit d = true := hall d (List.mem_cons_self _ _)
            show takeCount isHexDigit n (skipHyphen (d :: (pre1' ++ t2))) = some t2
            rw [skipHyphen, if_neg (isHexDigit_ne_hyphen d hd), ← hlen]
            exact takeCount_construct isHexDigit (d :: pre1') hall t2

theorem uuidCore_split (cs rest : List Char) (h : uuidCore cs = some rest) :
    ∃ pre, cs = pre ++ rest ∧ ∀ t2, uuidCore (pre ++ t2) = some t2 := by
  rw [uuidCore] at h
  cases h1 : takeCount isHexDigit 8 cs with
  | none => rw [h1] at h; simp at h
  | some cs1 =>
  rw [h1] at h
  simp only [] at h
  cases h2 : takeCount isHexDigit 4 (skipHyphen cs1) with
  | none => rw [h2] at h; simp at h
  | some cs2 =>
  rw [h2] at h
  simp only [] at h
  cases h3 : takeCount isHexDigit 4 (skipHyphen cs2) with
  | none => rw [h3] at h; simp at h
  | some cs3 =>
  rw [h3] at h
  simp only [] at h
  cases h4 : takeCount isHexDigit 4 (skipHyphen cs3) with
  | none => rw [h4] at h; simp at h
  | some cs4 =>
  rw [h4] at h
  simp only [] at h
  obtain ⟨p1, e1, l1, a1⟩ := takeCount_split isHexDigit 8 cs cs1 h1
  obtain ⟨p2, e2, r2⟩ := skipTake_split 4 (by decide) cs1 cs2 h2
  obtain ⟨p3, e3, r3⟩ := skipTake_split 4 (by decide) cs2 cs3 h3
  obtain ⟨p4, e4, r4⟩ := skipTake_split 4 (by decide) cs3 cs4 h4
  obtain ⟨p5, e5, r5⟩ := skipTake_split 12 (by decide) cs4 rest h
  refine ⟨p1 ++ p2 ++ p3 ++ p4 ++ p5, ?_, ?_⟩
  · rw [e1, e2, e3, e4, e5]
    simp [List.append_assoc]
  · intro t2
    have g1 := takeCount_construct isHexDigit p1 a1 (p2 ++ (p3 ++ (p4 ++ (p5 ++ t2))))
    rw [l1] at g1
    have g2 := r2 (p3 ++ (p4 ++ (p5 ++ t2)))
    have g3 := r3 (p4 ++ (p5 ++ t2))
    have g4 := r4 (p5 ++ t2)
    have g5 := r5 t2
    have hnorm : (p1 ++ p2 ++ p3 ++ p4 ++ p5) ++ t2 =
        p1 ++ (p2 ++ (p3 ++ (p4 ++ (p5 ++ t2)))) := by
      simp [List.append_assoc]
    rw [hnorm]
    simp only [uuidCore, g1, g2, g3, g4, g5]

theorem dollarAnchorOk_iff (rest : List Char) :
    dollarAnchorOk rest = true ↔ rest = [] ∨ rest = ['\n'] := by
  cases rest with
  | nil => simp [dollarAnchorOk]
  | cons c rest' =>
      cases rest' with
      | nil => simp [dollarAnchorOk]
      | cons d rest'' => simp [dollarAnchorOk]

theorem expectHyphen_some (l r : List Char) (h : expectHyphen l = some r) :
    l = '-' :: r := by
  cases l with
  | nil => rw [expectHyphen] at h; exact absurd h (by simp)
  | cons c cs =>
      rw [expectHyphen] at h
      by_cases hc : c = '-'
      · rw [if_pos hc] at h
        injection h with h
        rw [hc, h]
      · rw [if_neg hc] at h
        exact absurd h (by simp)

/-- What `is_valid_session_id` actually accepts: the spec's UUID-like shape,
or that shape followed by exactly one trailing newline (Python's `$` matches
just before a trailing newline). -/
theorem is_valid_session_id_iff (s : String) :
    is_valid_session_id s = true ↔
      (specUuidShape s = true ∨
       ∃ t, stripOneTrailingNewline s = some t ∧ specUuidShape t = true) := by
  constructor
  · intro h
    rw [is_valid_session_id] at h
    cases hc : uuidCore s.data with
    | none => rw [hc] at h; simp at h
    | some rest =>
        rw [hc] at h
        simp only [] at h
        rcases (dollarAnchorOk_iff rest).mp h with hr | hr
        · left
          rw [specUuidShape, hc, hr]
          rfl
        · right
          subst hr
          obtain ⟨pre, heq, hall⟩ := uuidCore_split s.data ['\n'] hc
          refine ⟨String.mk pre, ?_, ?_⟩
          · rw [stripOneTrailingNewline]
            have hrev : s.data.reverse = '\n' :: pre.reverse := by
              rw [heq]; simp
            rw [hrev]
            simp
          · rw [specUuidShape]
            have h2 := hall []
            rw [List.append_nil] at h2
            show (match uuidCore (String.mk pre).data with
              | some r => r.isEmpty
              | none => false) = true
            rw [show (String.mk pre).data = pre from rfl, h2]
            rfl
  · intro h
    rcases h with h | ⟨t, hstrip, hshape⟩
    · rw [specUuidShape] at h
      rw [is_valid_session_id]
      cases hc : uuidCore s.data with
      | none => rw [hc] at h; simp at h
      | some rest =>
          rw [hc] at h
          simp only [] at h
          have hre : rest = [] := by
            cases rest with
            | nil => rfl
            | cons a b => simp at h
          rw [hre]
          rfl
    · have hsdata : s.data = t.data ++ ['\n'] := by
        rw [stripOneTrailingNewline] at hstrip
        cases hrev : s.data.reverse with
        | nil => rw [hrev] at hstrip; simp at hstrip
        | cons c r =>
            rw [hrev] at hstrip
            simp only [] at hstrip
            by_cases hcn : c = '\n'
            · rw [if_pos hcn] at hstrip
              injection hstrip with hstrip
              have hdata : t.data = r.reverse := by
                rw [← hstrip]
              have : s.data = (s.data.reverse).reverse := by simp
              rw [this, hrev]
              simp [hdata, hcn]
            · rw [if_neg hcn] at hstrip
              exact absurd hstrip (by simp)
      rw [specUuidShape] at hshape
      cases hc : uuidCore t.data with
      | none => rw [hc] at hshape; simp at hshape
      | some rest =>
          rw [hc] at hshape
          simp only [] at hshape
          have hre : rest = [] := by
            cases rest with
            | nil => rfl
            | cons a b => simp at hshape
          subst hre
          obtain ⟨pre, heq, hall⟩ := uuidCore_split t.data [] hc
          rw [List.append_nil] at heq
          have h2 := hall ['\n']
          rw [← heq] at h2
          rw [is_valid_session_id, hsdata, h2]
          rfl

/-- A canonical `str(uuid.uuid4())` value passes `is_valid_session_id`. -/
theorem isCanonicalUuid_imp_valid (s : String) (h : isCanonicalUuid s = true) :
    is_valid_session_id s = true := by
  rw [isCanonicalUuid] at h
  cases c1 : takeCount isLowerHexDigit 8 s.data with
  | none => rw [c1] at h; simp at h
  | some s1 =>
  rw [c1] at h
  simp only [] at h
  cases c2 : expectHyphen s1 with
  | none => rw [c2] at h; simp at h
  | some s2 =>
  rw [c2] at h
  simp only [] at h
  cases c3 : takeCount isLowerHexDigit 4 s2 with
  | none => rw [c3] at h; simp at h
  | some s3 =>
  rw [c3] at h
  simp only [] at h
  cases c4 : expectHyphen s3 with
  | none => rw [c4] at h; simp at h
  | some s4 =>
  rw [c4] at h
  simp only [] at h
  cases c5 : takeCount isLowerHexDigit 4 s4 with
  | none => rw [c5] at h; simp at h
  | some s5 =>
  rw [c5] at h
  simp only [] at h
  cases c6 : expectHyphen s5 with
  | none => rw [c6] at h; simp at h
  | some s6 =>
  rw [c6] at h
  simp only [] at h
  cases c7 : takeCount isLowerHexDigit 4 s6 with
  | none => rw [c7] at h; simp at h
  | some s7 =>
  rw [c7] at h
  simp only [] at h
  cases c8 : expectHyphen s7 with
  | none => rw [c8] at h; simp at h
  | some s8 =>
  rw [c8] at h
  simp only [] at h
  cases c9 : takeCount isLowerHexDigit 12 s8 with
  | none => rw [c9] at h; simp at h
  | some s9 =>
  rw [c9] at h
  simp only [] at h
  have hs9 : s9 = [] := by
    cases s9 with
    | nil => rfl
    | cons a b => simp at h
  have m1 := takeCount_mono _ _ lowerHex_le_hex 8 _ _ c1
  have m3 := takeCount_mono _ _ lowerHex_le_hex 4 _ _ c3
  have m5 := takeCount_mono _ _ lowerHex_le_hex 4 _ _ c5
  have m7 := takeCount_mono _ _ lowerHex_le_hex 4 _ _ c7
  have m9 := takeCount_mono _ _ lowerHex_le_hex 12 _ _ c9
  have e2 := expectHyphen_some s1 s2 c2
  have e4 := expectHyphen_some s3 s4 c4
  have e6 := expectHyphen_some s5 s6 c6
  have e8 := expectHyphen_some s7 s8 c8
  have hcore : uuidCore s.data = some s9 := by
    simp [uuidCore, m1, e2, skipHyphen, m3, e4, m5, e6, m7, e8, m9]
  rw [is_valid_session_id, hcore, hs9]
  rfl

/-- C8 counterexample: `is_valid_session_id` also accepts a hex-group string
followed by one trailing newline (Python's `$` anchor matches before a
trailing newline), so a client-supplied `X-Session-ID` value that is NOT of
the claimed 8-4-4-4-12 hex shape is nevertheless used as the session key. -/
theorem C8_counterexample :
    is_valid_session_id "aaaaaaaa-aaaa-aaaa-aaaa-aaaaaaaaaaaa\n" = true ∧
    specUuidShape "aaaaaaaa-aaaa-aaaa-aaaa-aaaaaaaaaaaa\n" = false ∧
    get_session_id_from_request
        ⟨some "aaaaaaaa-aaaa-aaaa-aaaa-aaaaaaaaaaaa\n", none⟩ "ffffffff-ffff-ffff-ffff-ffffffffffff" =
      "aaaaaaaa-aaaa-aaaa-aaaa-aaaaaaaaaaaa\n" :=
  ⟨by decide, by decide, by decide⟩

/-- C8 (amended): a client-supplied session id is used as the key only when
`is_valid_session_id` accepts it, and otherwise a fresh canonical UUID is
used, so the returned id always satisfies `is_valid_session_id`; but the
accepted shape is the claimed 8-4-4-4-12 hex-groups-with-optional-hyphens
shape OR that shape followed by exactly one trailing newline. -/
theorem C8_session_id_validation (req : RequestSessionInputs) (freshUuid : String)
    (hfresh : isCanonicalUuid freshUuid = true) :
    (is_valid_session_id (get_session_id_from_request req freshUuid) = true ∧
     (get_session_id_from_request req freshUuid = freshUuid ∨
      (req.xSessionId = some (get_session_id_from_request req freshUuid) ∨
       req.sessionIdParam = some (get_session_id_from_request req freshUuid)))) ∧
    (∀ s : String, is_valid_session_id s = true ↔
      (specUuidShape s = true ∨
       ∃ t, stripOneTrailingNewline s = some t ∧ specUuidShape t = true)) := by
  constructor
  · rw [get_session_id_from_request]
    by_cases c1 : (pyTruthy req.xSessionId &&
        is_valid_session_id (req.xSessionId.getD "")) = true
    · rw [if_pos c1]
      rw [Bool.and_eq_true] at c1
      refine ⟨c1.2, Or.inr (Or.inl ?_)⟩
      cases hx : req.xSessionId with
      | none => rw [hx] at c1; simp [pyTruthy] at c1
      | some s => rfl
    · rw [if_neg c1]
      by_cases c2 : (pyTruthy req.sessionIdParam &&
          is_valid_session_id (req.sessionIdParam.getD "")) = true
      · rw [if_pos c2]
        rw [Bool.and_eq_true] at c2
        refine ⟨c2.2, Or.inr (Or.inr ?_)⟩
        cases hx : req.sessionIdParam with
        | none => rw [hx] at c2; simp [pyTruthy] at c2
        | some s => rfl
      · rw [if_neg c2]
        exact ⟨isCanonicalUuid_imp_valid freshUuid hfresh, Or.inl rfl⟩
  · intro s
    exact is_valid_session_id_iff s

/-- Witness for C8 at a concrete request whose header value fails validation,
so the canonical fresh UUID is returned. -/
theorem C8_session_id_validation_witness :
    ((is_valid_session_id
        (get_session_id_from_request ⟨some "not-a-uuid", none⟩
          "f47ac10b-58cc-4372-a567-0e02b2c3d479") = true ∧
      (get_session_id_from_request ⟨some "not-a-uuid", none⟩
          "f47ac10b-58cc-4372-a567-0e02b2c3d479" =
        "f47ac10b-58cc-4372-a567-0e02b2c3d479" ∨
       ((⟨some "not-a-uuid", none⟩ : RequestSessionInputs).xSessionId =
          some (get_session_id_from_request ⟨some "not-a-uuid", none⟩
            "f47ac10b-58cc-4372-a567-0e02b2c3d479") ∨
        (⟨some "not-a-uuid", none⟩ : RequestSessionInputs).sessionIdParam =
          some (get_session_id_from_request ⟨some "not-a-uuid", none⟩
            "f47ac10b-58cc-4372-a567-0e02b2c3d479")))) ∧
     (∀ s : String, is_valid_session_id s = true ↔
       (specUuidShape s = true ∨
        ∃ t, stripOneTrailingNewline s = some t ∧ specUuidShape t = true))) :=
  C8_session_id_validation ⟨some "not-a-uuid", none⟩
    "f47ac10b-58cc-4372-a567-0e02b2c3d479" (by decide)

/-- C9 counterexample: with a timezone-naive `created_at`,
`ClientCredentialsAuth._is_token_expired` compares the aware `utc_now()`
against a naive datetime and raises `TypeError`, so it returns no verdict at
all -- in particular not the §3 predicate's verdict. -/
theorem C9_counterexample :
    auth_is_token_expired
        (some { access_token := "a", expires_in := 10,
                created_at := some { aware := false, t := 0 } }) 100 =
      Except.error (PyError.typeError
        "cannot compare offset-naive and offset-aware datetimes") ∧
    ∀ b : Bool,
      auth_is_token_expired
          (some { access_token := "a", expires_in := 10,
                  created_at := some { aware := false, t := 0 } }) 100 ≠
        Except.ok b := by
  refine ⟨rfl, ?_⟩
  intro b h
  have h1 : auth_is_token_expired
      (some { access_token := "a", expires_in := 10,
              created_at := some { aware := false, t := 0 } }) 100 =
    Except.error (PyError.typeError
      "cannot compare offset-naive and offset-aware datetimes") := rfl
  rw [h1] at h
  simp at h

/-- C9 (amended): when the token is absent, its `created_at` is absent, or
its `created_at` is timezone-aware, `_is_token_expired` returns exactly the
verdict of the §3 derived predicate `is_expired` at buffer 0 for the
`OAuth21Token` with the same `access_token`, `expires_in` and `created_at`;
when `created_at` is timezone-naive it raises `TypeError` instead of
returning any verdict. -/
theorem C9_client_credentials_expiry (tok : Option TokenModel)
    (nowNaive nowAware : Int) :
    ((tok = none ∨ (∃ t, tok = some t ∧ t.created_at = none) ∨
      (∃ t ca, tok = some t ∧ t.created_at = some ca ∧ ca.aware = true)) →
      auth_is_token_expired tok nowAware =
        Except.ok (match tok with
          | none => true
          | some t => is_expired (oauth21OfToken t) nowNaive nowAware 0)) ∧
    (∀ t ca, tok = some t → t.created_at = some ca → ca.aware = false →
      auth_is_token_expired tok nowAware =
        Except.error (PyError.typeError
          "cannot compare offset-naive and offset-aware datetimes")) := by
  constructor
  · intro h
    rcases h with h | ⟨t, ht, hca⟩ | ⟨t, ca, ht, hca, haware⟩
    · subst h
      rfl
    · subst ht
      simp [auth_is_token_expired, is_expired, oauth21OfToken, hca]
    · subst ht
      simp [auth_is_token_expired, is_expired, oauth21OfToken, hca, haware,
        pyGE, addSeconds]
  · intro t ca ht hca hnaive
    subst ht
    simp [auth_is_token_expired, pyGE, addSeconds, hca, hnaive]

/-- Witness for C9: a concrete aware token agrees with the §3 predicate, and
a concrete naive token makes the auth provider's check raise. -/
theorem C9_client_credentials_expiry_witness :
    (auth_is_token_expired
        (some { access_token := "a", expires_in := 10,
                created_at := some { aware := true, t := 0 } }) 100 =
      Except.ok (is_expired
        (oauth21OfToken { access_token := "a",
                          expires_in := 10,
                          created_at := some { aware := true, t := 0 } }) 50 100 0)) ∧
    (auth_is_token_expired
        (some { access_token := "b", expires_in := 10,
                created_at := some { aware := false, t := 3 } }) 100 =
      Except.error (PyError.typeError
        "cannot compare offset-naive and offset-aware datetimes")) :=
  ⟨(C9_client_credentials_expiry
      (some { access_token := "a", expires_in := 10,
              created_at := some { aware := true, t := 0 } }) 50 100).1
      (Or.inr (Or.inr ⟨_, _, rfl, rfl, rfl⟩)),
   (C9_client_credentials_expiry
      (some { access_token := "b", expires_in := 10,
              created_at := some { aware := false, t := 3 } }) 50 100).2
      _ _ rfl rfl rfl⟩

/-- C2 counterexample: (i) on a connection-level transport error, the 502
body returned by `proxy_token_request` carries the raw exception text in its
`error_description` field -- it is not a generic body; (ii) the route
handler raises `TypeError` on every parsed request, because the call in
routes.py omits `proxy_token_request`'s mandatory `session_id` argument, so
the MCP client does not receive a 502 from the handler at all. -/
theorem C2_counterexample :
    (proxy_token_request 1000 [("aa", sampleSession)] "sid"
        (.requestError "Connection refused by upstream") 7).res =
      Except.ok (Json.obj [("error", Json.str "server_error"),
        ("error_description", Json.str "Connection refused by upstream")], 502) ∧
    token_handler (.parsed [("grant_type", "authorization_code")]) =
      Except.error (PyError.typeError
        "proxy_token_request missing 1 required positional argument session_id") :=
  ⟨rfl, rfl⟩

/-- C2 (amended): `proxy_token_request` itself never raises on a transport
error or an undecodable upstream body: it returns HTTP 502 with a JSON body
whose `error` field is the generic `server_error` and leaves the Session
Store unchanged; for transport errors the `error_description` carries the
transport exception's own text, while undecodable bodies get the fixed
generic description; the route handler as wired, however, raises `TypeError`
before reaching this code because its call omits `session_id`. -/
theorem C2_transport_and_nonjson_502 (maxSessions : Nat) (st : Store)
    (sid : String) (now : Int) :
    (∀ m : String,
      proxy_token_request maxSessions st sid (.requestError m) now =
        ⟨.ok (Json.obj [("error", .str "server_error"),
                        ("error_description", .str m)], 502), st⟩) ∧
    (∀ r : UpstreamResponse, r.jsonBody = none →
      proxy_token_request maxSessions st sid (.response r) now =
        ⟨.ok (Json.obj [("error", .str "server_error"),
          ("error_description", .str "Invalid response from auth server")], 502), st⟩) ∧
    (∀ f : List (String × String), token_handler (.parsed f) =
      Except.error (.typeError
        "proxy_token_request missing 1 required positional argument session_id")) := by
  refine ⟨fun m => rfl, fun r hr => ?_, fun f => rfl⟩
  rw [proxy_token_request, hr]

/-- Witness for C2 at a concrete non-JSON upstream response. -/
theorem C2_transport_and_nonjson_502_witness :
    proxy_token_request 1000 [] "sid9"
        (.response { status := 200, contentType := "text/html",
                     jsonBody := none, text := "<html>oops</html>" }) 3 =
      ⟨.ok (Json.obj [("error", .str "server_error"),
        ("error_description", .str "Invalid response from auth server")], 502), []⟩ :=
  (C2_transport_and_nonjson_502 1000 [] "sid9" 3).2.1
    { status := 200, contentType := "text/html",
      jsonBody := none, text := "<html>oops</html>" } rfl

/-- When the grant preconditions hold, `exchange_token` is exactly its
network phase. -/
theorem exchange_token_reaches_network (cfg : Config) (N : Nat) (st : Store)
    (a : ExchangeArgs) (sid : String) (up : PostResult) (now : Int)
    (hgrant : grantArgsOk a) :
    exchange_token cfg N st a sid up now =
      exchangeNetwork N st sid (exchangeFormData cfg a) up now := by
  rcases hgrant with ⟨hg, hc, hr⟩ | ⟨hg, hr⟩
  · rw [exchange_token, if_pos hg, if_neg (not_not_intro hc),
      if_neg (not_not_intro hr)]
  · rw [exchange_token, if_neg (by rw [hg]; decide), if_pos hg,
      if_neg (not_not_intro hr)]

/-- Any raising path of the network phase leaves the store untouched. -/
theorem exchangeNetwork_error_store (N : Nat) (st : Store) (sid : String)
    (f : List (String × String)) (up : PostResult) (now : Int) (e : PyError)
    (h : (exchangeNetwork N st sid f up now).res = .error e) :
    (exchangeNetwork N st sid f up now).store = st := by
  cases up with
  | requestError m => rfl
  | response r =>
      rw [exchangeNetwork] at h ⊢
      by_cases hs : r.status ≠ 200
      · simp only [if_pos hs] at h ⊢
        by_cases hct : strStartsWith r.contentType "application/json" = true
        · simp only [if_pos hct] at h ⊢
          cases hb : r.jsonBody with
          | none => rfl
          | some j => cases j <;> rfl
        · simp [if_neg hct]
      · simp only [if_neg hs] at h ⊢
        cases hb : r.jsonBody with
        | none => rfl
        | some td =>
            rw [hb] at h
            cases hct2 : create_token td now with
            | error e2 => simp [hct2]
            | ok tok => simp [hct2] at h

/-- C5 counterexample: a non-200 upstream response whose `Content-Type`
claims JSON but whose body does not decode makes `exchange_token` raise a
`json.JSONDecodeError` -- a `ValueError`, the same kind as the local
precondition failures -- not the distinct `TokenProxyError`, and only after
the network call. -/
theorem C5_counterexample :
    (exchange_token sampleConfig 1000 []
        { grant_type := "refresh_token", refresh_token := some "rt" } "sid"
        (.response { status := 400, contentType := "application/json",
                     jsonBody := none, text := "<html>" }) 9).res =
      Except.error (PyError.valueError "Expecting value: line 1 column 1 (char 0)") ∧
    (exchange_token sampleConfig 1000 []
        { grant_type := "refresh_token", refresh_token := some "rt" } "sid"
        (.response { status := 400, contentType := "application/json",
                     jsonBody := none, text := "<html>" }) 9).networkCalled = true :=
  ⟨rfl, rfl⟩

/-- C5 (amended): missing grant fields and unsupported grants fail locally
with `ValueError` before any network call, leaving the store unchanged; a
transport failure raises `TokenProxyError`; a non-200 upstream response
raises `TokenProxyError` carrying the upstream `error_description`, else
`error`, else the raw text when the declared-JSON body decodes to an object,
and `TokenProxyError` with the raw text when the `Content-Type` is not JSON
-- but a declared-JSON body that fails to decode raises a JSON decode
`ValueError` instead; and every raising path leaves the Session Store
unchanged. -/
theorem C5_exchange_token_error_taxonomy (cfg : Config) (N : Nat) (st : Store)
    (a : ExchangeArgs) (sid : String) (up : PostResult) (now : Int) :
    ((a.grant_type = "authorization_code" → pyTruthy a.code = false →
        exchange_token cfg N st a sid up now =
          ⟨.error (.valueError "code required for authorization_code grant"), st, false⟩) ∧
     (a.grant_type = "authorization_code" → pyTruthy a.code = true →
        pyTruthy a.redirect_uri = false →
        exchange_token cfg N st a sid up now =
          ⟨.error (.valueError "redirect_uri required for authorization_code grant"), st, false⟩) ∧
     (a.grant_type = "refresh_token" → pyTruthy a.refresh_token = false →
        exchange_token cfg N st a sid up now =
          ⟨.error (.valueError "refresh_token required for refresh_token grant"), st, false⟩) ∧
     (a.grant_type ≠ "authorization_code" → a.grant_type ≠ "refresh_token" →
        exchange_token cfg N st a sid up now =
          ⟨.error (.valueError ("Unsupported grant_type: " ++ a.grant_type)), st, false⟩)) ∧
    ((∀ m : String, up = .requestError m → grantArgsOk a →
        exchange_token cfg N st a sid up now =
          ⟨.error (.tokenProxyError ("Failed to connect to auth server: " ++ m)), st, true⟩) ∧
     (∀ (r : UpstreamResponse) (kvs : List (String × Json)),
        up = .response r → grantArgsOk a → r.status ≠ 200 →
        strStartsWith r.contentType "application/json" = true →
        r.jsonBody = some (.obj kvs) →
        exchange_token cfg N st a sid up now =
          ⟨.error (.tokenProxyError ("Token exchange failed: " ++
            (match listGet kvs "error_description" with
             | some v => pyStr v
             | none =>
                 match listGet kvs "error" with
                 | some v => pyStr v
                 | none => r.text))), st, true⟩) ∧
     (∀ r : UpstreamResponse, up = .response r → grantArgsOk a →
        r.status ≠ 200 →
        strStartsWith r.contentType "application/json" = false →
        exchange_token cfg N st a sid up now =
          ⟨.error (.tokenProxyError ("Token exchange failed: " ++ r.text)), st, true⟩) ∧
     (∀ r : UpstreamResponse, up = .response r → grantArgsOk a →
        r.status ≠ 200 →
        strStartsWith r.contentType "application/json" = true →
        r.jsonBody = none →
        exchange_token cfg N st a sid up now =
          ⟨.error (.valueError "Expecting value: line 1 column 1 (char 0)"), st, true⟩)) ∧
    (∀ e : PyError, (exchange_token cfg N st a sid up now).res = .error e →
      (exchange_token cfg N st a sid up now).store = st) := by
  refine ⟨⟨?_, ?_, ?_, ?_⟩, ⟨?_, ?_, ?_, ?_⟩, ?_⟩
  · intro h1 h2
    rw [exchange_token, if_pos h1, if_pos (by rw [h2]; simp)]
  · intro h1 h2 h3
    rw [exchange_token, if_pos h1, if_neg (not_not_intro h2),
      if_pos (by rw [h3]; simp)]
  · intro h1 h2
    rw [exchange_token, if_neg (by rw [h1]; decide), if_pos h1,
      if_pos (by rw [h2]; simp)]
  · intro h1 h2
    rw [exchange_token, if_neg h1, if_neg h2]
  · intro m hup hgrant
    subst hup
    rw [exchange_token_reaches_network cfg N st a sid _ now hgrant]
    rfl
  · intro r kvs hup hgrant hstat hct hbody
    subst hup
    rw [exchange_token_reaches_network cfg N st a sid _ now hgrant]
    rw [exchangeNetwork, if_pos hstat, if_pos hct, hbody]
  · intro r hup hgrant hstat hct
    subst hup
    rw [exchange_token_reaches_network cfg N st a sid _ now hgrant]
    rw [exchangeNetwork, if_pos hstat,
      if_neg (by rw [hct]; simp)]
  · intro r hup hgrant hstat hct hbody
    subst hup
    rw [exchange_token_reaches_network cfg N st a sid _ now hgrant]
    rw [exchangeNetwork, if_pos hstat, if_pos hct, hbody]
  · intro e he
    rw [exchange_token] at he ⊢
    split_ifs at he ⊢ with h1 h2 h3 h4 h5
    all_goals first
      | rfl
      | exact exchangeNetwork_error_store _ _ _ _ _ _ e he

/-- Witness for C5: a concrete refresh-token exchange rejected upstream with
a JSON error body surfaces the upstream error_description inside a
`TokenProxyError` and leaves the concrete store unchanged. -/
theorem C5_exchange_token_error_taxonomy_witness :
    exchange_token sampleConfig 1000 [("aa", sampleSession)]
        { grant_type := "refresh_token", refresh_token := some "rt" } "sid"
        (.response { status := 400, contentType := "application/json",
                     jsonBody := some (.obj [("error_description", .str "bad token")]),
                     text := "raw" }) 4 =
      ⟨.error (.tokenProxyError "Token exchange failed: bad token"),
       [("aa", sampleSession)], true⟩ :=
  (C5_exchange_token_error_taxonomy sampleConfig 1000 [("aa", sampleSession)]
      { grant_type := "refresh_token", refresh_token := some "rt" } "sid"
      (.response { status := 400, contentType := "application/json",
                   jsonBody := some (.obj [("error_description", .str "bad token")]),
                   text := "raw" }) 4).2.1.2.1
    { status := 400, contentType := "application/json",
      jsonBody := some (.obj [("error_description", .str "bad token")]),
      text := "raw" }
    [("error_description", .str "bad token")]
    rfl (Or.inr ⟨rfl, rfl⟩) (by decide) (by decide) rfl

/-- A token normalised by `_create_token` carries `created_at = utc_now()`
and a positive `expires_in` (enforced by the pydantic validator). -/
theorem create_token_ok_fresh (td : Json) (now : Int) (tok : OAuth21Token)
    (h : create_token td now = .ok tok) :
    tok.created_at = some { aware := true, t := now } ∧ 0 < tok.expires_in := by
  cases td with
  | obj kvs =>
      rw [create_token] at h
      cases h1 : (match listGet kvs "access_token" with
          | none => Except.error (PyError.keyError "access_token")
          | some v => asStrField v) with
      | error e => rw [h1] at h; simp at h
      | ok at0 =>
      rw [h1] at h
      cases h2 : asStrField ((listGet kvs "token_type").getD (.str "Bearer")) with
      | error e => rw [h2] at h; simp at h
      | ok tt =>
      rw [h2] at h
      cases h3 : asExpiresIn ((listGet kvs "expires_in").getD (.num 3600)) with
      | error e => rw [h3] at h; simp at h
      | ok ei =>
      rw [h3] at h
      cases h4 : asOptStrField ((listGet kvs "refresh_token").getD .null) with
      | error e => rw [h4] at h; simp at h
      | ok rt =>
      rw [h4] at h
      cases h5 : asOptStrField ((listGet kvs "scope").getD .null) with
      | error e => rw [h5] at h; simp at h
      | ok sc =>
      rw [h5] at h
      simp only [] at h
      injection h with h
      have hei : 0 < ei := by
        cases hv : (listGet kvs "expires_in").getD (.num 3600) with
        | num n =>
            rw [hv] at h3
            simp only [asExpiresIn] at h3
            by_cases hn : n > 0
            · rw [if_pos hn] at h3
              injection h3 with h3
              omega
            · rw [if_neg hn] at h3
              exact absurd h3 (by simp)
        | null => rw [hv] at h3; simp [asExpiresIn] at h3
        | bool b => rw [hv] at h3; simp [asExpiresIn] at h3
        | str s => rw [hv] at h3; simp [asExpiresIn] at h3
        | arr xs => rw [hv] at h3; simp [asExpiresIn] at h3
        | obj o => rw [hv] at h3; simp [asExpiresIn] at h3
      rw [← h]
      exact ⟨rfl, hei⟩
  | null => simp [create_token] at h
  | bool b => simp [create_token] at h
  | num n => simp [create_token] at h
  | str s => simp [create_token] at h
  | arr xs => simp [create_token] at h

/-- A token returned successfully by `exchange_token` was normalised at the
current time and stamped with the session id, so it is fresh. -/
theorem exchange_ok_token_fresh (cfg : Config) (N : Nat) (st : Store)
    (a : ExchangeArgs) (sid : String) (up : PostResult) (now : Int)
    (tok : OAuth21Token)
    (h : (exchange_token cfg N st a sid up now).res = .ok tok) :
    tok.created_at = some { aware := true, t := now } ∧ 0 < tok.expires_in := by
  rw [exchange_token] at h
  split_ifs at h with h1 h2 h3 h4 h5
  all_goals first
    | exact absurd h (by simp)
    | (cases up with
       | requestError m => rw [exchangeNetwork] at h; simp at h
       | response r =>
           rw [exchangeNetwork] at h
           by_cases hs : r.status ≠ 200
           · simp only [if_pos hs] at h
             by_cases hct : strStartsWith r.contentType "application/json" = true
             · simp only [if_pos hct] at h
               cases hb : r.jsonBody with
               | none => rw [hb] at h; simp at h
               | some j => rw [hb] at h; cases j <;> simp at h
             · simp only [if_neg hct] at h
               simp at h
           · simp only [if_neg hs] at h
             cases hb : r.jsonBody with
             | none => rw [hb] at h; simp at h
             | some td =>
                 rw [hb] at h
                 cases hct2 : create_token td now with
                 | error e2 => simp [hct2] at h
                 | ok tok0 =>
                     simp [hct2] at h
                     obtain ⟨hca, hei⟩ := create_token_ok_fresh td now tok0 hct2
                     subst h
                     exact ⟨hca, hei⟩)

/-- Any raising path of `exchange_token` leaves the store untouched. -/
theorem exchange_token_error_store (cfg : Config) (N : Nat) (st : Store)
    (a : ExchangeArgs) (sid : String) (up : PostResult) (now : Int) (e : PyError)
    (h : (exchange_token cfg N st a sid up now).res = .error e) :
    (exchange_token cfg N st a sid up now).store = st := by
  rw [exchange_token] at h ⊢
  split_ifs at h ⊢ with h1 h2 h3 h4 h5
  all_goals first
    | rfl
    | exact exchangeNetwork_error_store _ _ _ _ _ _ e h

/-- C4 counterexample: an expired session with a refresh token, refreshed
against an upstream that answers 200 with a JSON body lacking
`access_token`, makes `ensure_valid_token` raise `KeyError` -- the caller
receives neither a valid token nor an absent one, and the session is not
deleted. -/
theorem C4_counterexample :
    (ensure_valid_token sampleConfig 1000 expiredStore "sid1"
        (.response { status := 200, contentType := "application/json",
                     jsonBody := some (.obj [("token_type", .str "Bearer")]),
                     text := "" }) 9999 10000).res =
      Except.error (PyError.keyError "access_token") ∧
    (listGet (ensure_valid_token sampleConfig 1000 expiredStore "sid1"
        (.response { status := 200, contentType := "application/json",
                     jsonBody := some (.obj [("token_type", .str "Bearer")]),
                     text := "" }) 9999 10000).store "sid1").isSome = true :=
  ⟨rfl, rfl⟩

/-- C4 (amended): `ensure_valid_token` returns absent when the store has no
token for the session; returns the stored token unchanged with no exchange
attempt when it is not expired within the buffer; on expiry with no truthy
refresh token, deletes the session and returns absent; on expiry with a
refresh token it attempts the exchange and, when the exchange raises
`TokenProxyError` or `ValueError`, deletes the session and returns absent --
but any other exchange exception (such as `KeyError` on a 200 body without
`access_token`) propagates to the caller with the session kept; on exchange
success it returns the fresh token, which is not expired at buffer 0. -/
theorem C4_ensure_valid_token_cases (cfg : Config) (N : Nat) (st : Store)
    (sid : String) (up : PostResult) (nowNaive nowAware : Int) :
    (listGet st sid = none →
      ensure_valid_token cfg N st sid up nowNaive nowAware = ⟨.ok none, st, false⟩) ∧
    (∀ sd, listGet st sid = some sd →
      is_expired sd.token nowNaive nowAware cfg.oauth_refresh_buffer_seconds = false →
      ensure_valid_token cfg N st sid up nowNaive nowAware =
        ⟨.ok (some sd.token), listSet st sid { sd with last_accessed := nowAware },
         false⟩) ∧
    (∀ sd, listGet st sid = some sd →
      is_expired sd.token nowNaive nowAware cfg.oauth_refresh_buffer_seconds = true →
      pyTruthy sd.token.refresh_token = false →
      ensure_valid_token cfg N st sid up nowNaive nowAware =
        ⟨.ok none,
         delete_session (listSet st sid { sd with last_accessed := nowAware }) sid,
         false⟩ ∧
      (storeWF st →
        listGet (ensure_valid_token cfg N st sid up nowNaive nowAware).store sid =
          none)) ∧
    (∀ sd, listGet st sid = some sd →
      is_expired sd.token nowNaive nowAware cfg.oauth_refresh_buffer_seconds = true →
      pyTruthy sd.token.refresh_token = true →
      (∀ e, (exchange_token cfg N (listSet st sid { sd with last_accessed := nowAware })
            { grant_type := "refresh_token", refresh_token := sd.token.refresh_token }
            sid up nowAware).res = .error e →
        (((∃ m, e = .tokenProxyError m) ∨ (∃ m, e = .valueError m)) →
          ensure_valid_token cfg N st sid up nowNaive nowAware =
            ⟨.ok none,
             delete_session (listSet st sid { sd with last_accessed := nowAware }) sid,
             true⟩ ∧
          (storeWF st →
            listGet (ensure_valid_token cfg N st sid up nowNaive nowAware).store sid =
              none)) ∧
        ((∀ m, e ≠ .tokenProxyError m) → (∀ m, e ≠ .valueError m) →
          ensure_valid_token cfg N st sid up nowNaive nowAware =
            ⟨.error e, listSet st sid { sd with last_accessed := nowAware }, true⟩)) ∧
      (∀ newTok,
        (exchange_token cfg N (listSet st sid { sd with last_accessed := nowAware })
            { grant_type := "refresh_token", refresh_token := sd.token.refresh_token }
            sid up nowAware).res = .ok newTok →
        (ensure_valid_token cfg N st sid up nowNaive nowAware).res = .ok (some newTok) ∧
        (ensure_valid_token cfg N st sid up nowNaive nowAware).exchangeAttempted = true ∧
        is_expired newTok nowNaive nowAware 0 = false)) := by
  refine ⟨?_, ?_, ?_, ?_⟩
  · intro hget
    have hg : get_token st sid nowAware = (none, st) := by
      rw [get_token, hget]
    rw [ensure_valid_token, hg]
  · intro sd hget hexp
    have hg : get_token st sid nowAware =
        (some sd.token, listSet st sid { sd with last_accessed := nowAware }) := by
      rw [get_token, hget]
    rw [ensure_valid_token, hg]
    simp only []
    rw [if_pos (by rw [hexp]; simp)]
  · intro sd hget hexp hrt
    have hg : get_token st sid nowAware =
        (some sd.token, listSet st sid { sd with last_accessed := nowAware }) := by
      rw [get_token, hget]
    have hE : ensure_valid_token cfg N st sid up nowNaive nowAware =
        ⟨.ok none,
         delete_session (listSet st sid { sd with last_accessed := nowAware }) sid,
         false⟩ := by
      rw [ensure_valid_token, hg]
      simp only []
      rw [if_neg (not_not_intro hexp), if_neg (by rw [hrt]; simp)]
    refine ⟨hE, ?_⟩
    intro hwf
    rw [hE]
    exact listGet_listErase_self _ sid (nodup_keysOf_listSet st sid _ hwf)
  · intro sd hget hexp hrt
    have hg : get_token st sid nowAware =
        (some sd.token, listSet st sid { sd with last_accessed := nowAware }) := by
      rw [get_token, hget]
    have hE : ensure_valid_token cfg N st sid up nowNaive nowAware =
        (let out := exchange_token cfg N
            (listSet st sid { sd with last_accessed := nowAware })
            { grant_type := "refresh_token", refresh_token := sd.token.refresh_token }
            sid up nowAware
         match out.res with
         | .ok newTok => ⟨.ok (some newTok), out.store, true⟩
         | .error (.tokenProxyError _) => ⟨.ok none, delete_session out.store sid, true⟩
         | .error (.valueError _) => ⟨.ok none, delete_session out.store sid, true⟩
         | .error e => ⟨.error e, out.store, true⟩) := by
      rw [ensure_valid_token, hg]
      simp only []
      rw [if_neg (not_not_intro hexp), if_pos hrt]
    refine ⟨?_, ?_⟩
    · intro e hout
      have hstore := exchange_token_error_store cfg N _ _ sid up nowAware e hout
      constructor
      · intro hkind
        have hE2 : ensure_valid_token cfg N st sid up nowNaive nowAware =
            ⟨.ok none,
             delete_session (listSet st sid { sd with last_accessed := nowAware }) sid,
             true⟩ := by
          rw [hE]
          simp only []
          rcases hkind with ⟨m, rfl⟩ | ⟨m, rfl⟩
          · rw [hout, hstore]
          · rw [hout, hstore]
        refine ⟨hE2, ?_⟩
        intro hwf
        rw [hE2]
        exact listGet_listErase_self _ sid (nodup_keysOf_listSet st sid _ hwf)
      · intro hn1 hn2
        rw [hE]
        simp only []
        cases e with
        | tokenProxyError m => exact absurd rfl (hn1 m)
        | valueError m => exact absurd rfl (hn2 m)
        | typeError m => rw [hout, hstore]
        | keyError m => rw [hout, hstore]
        | attributeError m => rw [hout, hstore]
        | requestException m => rw [hout, hstore]
        | httpStatusError s => rw [hout, hstore]
    · intro newTok hout
      obtain ⟨hca, hei⟩ := exchange_ok_token_fresh cfg N _ _ sid up nowAware newTok hout
      have hE2 : (ensure_valid_token cfg N st sid up nowNaive nowAware).res =
            .ok (some newTok) ∧
          (ensure_valid_token cfg N st sid up nowNaive nowAware).exchangeAttempted =
            true := by
        rw [hE]
        simp only []
        rw [hout]
        exact ⟨rfl, rfl⟩
      refine ⟨hE2.1, hE2.2, ?_⟩
      rw [is_expired, hca]
      simp only []
      simp
      omega

/-- Witness for C4 at the not-expired short-circuit on a concrete store. -/
theorem C4_ensure_valid_token_cases_witness :
    ensure_valid_token sampleConfig 1000 freshStore "sid2"
        (.requestError "unreachable") 1 2 =
      ⟨.ok (some freshSessionToken),
       listSet freshStore "sid2"
         { token := freshSessionToken, created_at := 0, last_accessed := 2 },
       false⟩ :=
  (C4_ensure_valid_token_cases sampleConfig 1000 freshStore "sid2"
      (.requestError "unreachable") 1 2).2.1
    { token := freshSessionToken, created_at := 0, last_accessed := 0 }
    rfl (by decide)

/-- Looking up a field after the echo loop: fields in the (duplicate-free)
echo list resolve to the client's value, else the default, else whatever the
base response carried; fields outside the list are untouched. -/
theorem dcr_fold_lookup (body : List (String × Json)) :
    ∀ (fs : List String), fs.Nodup → ∀ (resp0 : List (String × Json)) (f : String),
      listGet (fs.foldl (dcrEchoStep body) resp0) f =
        if f ∈ fs then
          (match listGet body f with
           | some v => some v
           | none =>
               match listGet dcrDefaults f with
               | some d => some d
               | none => listGet resp0 f)
        else listGet resp0 f := by
  intro fs
  induction fs with
  | nil =>
      intro _ resp0 f
      simp
  | cons f0 fs' ih =>
      intro hnd resp0 f
      rw [List.nodup_cons] at hnd
      rw [List.foldl_cons, ih hnd.2]
      by_cases hf : f = f0
      · subst hf
        have hfn : f ∉ fs' := hnd.1
        rw [if_neg hfn, if_pos (List.mem_cons_self _ _)]
        rw [dcrEchoStep]
        cases hb : listGet body f with
        | some v => simp [listGet_listSet_self]
        | none =>
            cases hd : listGet dcrDefaults f with
            | some d => simp [listGet_listSet_self]
            | none => simp
      · have hmem : (f ∈ f0 :: fs') ↔ (f ∈ fs') := by
          simp [List.mem_cons, hf]
        have hstep : listGet (dcrEchoStep body resp0 f0) f = listGet resp0 f := by
          rw [dcrEchoStep]
          cases hb : listGet body f0 with
          | some v => exact listGet_listSet_ne _ _ _ _ hf
          | none =>
              cases hd : listGet dcrDefaults f0 with
              | some d => exact listGet_listSet_ne _ _ _ _ hf
              | none => rfl
        by_cases hf2 : f ∈ fs'
        · rw [if_pos hf2, if_pos (hmem.mpr hf2), hstep]
        · rw [if_neg hf2, if_neg (fun h2 => hf2 (hmem.mp h2)), hstep]

/-- C7: with DCR credentials configured, a registration response carries the
configured `client_id`/`client_secret`, `client_id_issued_at` = now,
`client_secret_expires_at` = 0; every client-supplied field of the echo set
is echoed with the caller's value; the three documented defaults are
substituted when the caller omits them; the handler answers 201.  When
either credential is missing (falsy), registration fails with the DCR error
kind and the handler answers 400 `invalid_request`. -/
theorem C7_dcr_registration (cfg : Config) (body : List (String × Json))
    (now : Int) :
    (pyTruthy cfg.oauth_dcr_client_id = true →
     pyTruthy cfg.oauth_dcr_client_secret = true →
     ∃ resp, handle_client_registration cfg body now = .ok resp ∧
       listGet resp "client_id" = some (.str (cfg.oauth_dcr_client_id.getD "")) ∧
       listGet resp "client_secret" = some (.str (cfg.oauth_dcr_client_secret.getD "")) ∧
       listGet resp "client_id_issued_at" = some (.num now) ∧
       listGet resp "client_secret_expires_at" = some (.num 0) ∧
       (∀ f, f ∈ echoedFields → ∀ v, listGet body f = some v →
         listGet resp f = some v) ∧
       (listGet body "grant_types" = none →
         listGet resp "grant_types" = some (.arr [.str "authorization_code"])) ∧
       (listGet body "response_types" = none →
         listGet resp "response_types" = some (.arr [.str "code"])) ∧
       (listGet body "token_endpoint_auth_method" = none →
         listGet resp "token_endpoint_auth_method" = some (.str "client_secret_post")) ∧
       register_handler cfg (.parsed body) now = (.obj resp, 201)) ∧
    (¬ (pyTruthy cfg.oauth_dcr_client_id = true ∧
        pyTruthy cfg.oauth_dcr_client_secret = true) →
     register_handler cfg (.parsed body) now =
       (.obj [("error", .str "invalid_request"),
              ("error_description", .str "DCR credentials not configured. Set OAUTH_DCR_CLIENT_ID and OAUTH_DCR_CLIENT_SECRET environment variables.")],
        400)) := by
  have hnd : echoedFields.Nodup := by decide
  constructor
  · intro hid hsec
    have hok : handle_client_registration cfg body now =
        .ok (echoedFields.foldl (dcrEchoStep body)
          [("client_id", .str (cfg.oauth_dcr_client_id.getD "")),
           ("client_secret", .str (cfg.oauth_dcr_client_secret.getD "")),
           ("client_id_issued_at", .num now),
           ("client_secret_expires_at", .num 0)]) := by
      rw [handle_client_registration, if_neg (not_not_intro ⟨hid, hsec⟩)]
    refine ⟨_, hok, ?_, ?_, ?_, ?_, ?_, ?_, ?_, ?_, ?_⟩
    · rw [dcr_fold_lookup body echoedFields hnd]
      rw [if_neg (by decide)]
      rfl
    · rw [dcr_fold_lookup body echoedFields hnd]
      rw [if_neg (by decide)]
      rfl
    · rw [dcr_fold_lookup body echoedFields hnd]
      rw [if_neg (by decide)]
      rfl
    · rw [dcr_fold_lookup body echoedFields hnd]
      rw [if_neg (by decide)]
      rfl
    · intro f hf v hv
      rw [dcr_fold_lookup body echoedFields hnd, if_pos hf, hv]
    · intro hnone
      rw [dcr_fold_lookup body echoedFields hnd, if_pos (by decide), hnone]
      rfl
    · intro hnone
      rw [dcr_fold_lookup body echoedFields hnd, if_pos (by decide), hnone]
      rfl
    · intro hnone
      rw [dcr_fold_lookup body echoedFields hnd, if_pos (by decide), hnone]
      rfl
    · rw [register_handler]
      rw [hok]
  · intro hcreds
    rw [register_handler]
    rw [handle_client_registration, if_pos (by
      intro h2
      exact hcreds ⟨h2.1, h2.2⟩)]

/-- Witness for C7 with configured credentials and a body supplying only
`client_name`; plus the unconfigured case on a credential-less config. -/
theorem C7_dcr_registration_witness :
    (∃ resp, handle_client_registration sampleConfig
        [("client_name", .str "X")] 42 = .ok resp ∧
      listGet resp "client_id" = some (.str (sampleConfig.oauth_dcr_client_id.getD "")) ∧
      listGet resp "client_secret" = some (.str (sampleConfig.oauth_dcr_client_secret.getD "")) ∧
      listGet resp "client_id_issued_at" = some (.num 42) ∧
      listGet resp "client_secret_expires_at" = some (.num 0) ∧
      (∀ f, f ∈ echoedFields → ∀ v, listGet [("client_name", Json.str "X")] f = some v →
        listGet resp f = some v) ∧
      (listGet [("client_name", Json.str "X")] "grant_types" = none →
        listGet resp "grant_types" = some (.arr [.str "authorization_code"])) ∧
      (listGet [("client_name", Json.str "X")] "response_types" = none →
        listGet resp "response_types" = some (.arr [.str "code"])) ∧
      (listGet [("client_name", Json.str "X")] "token_endpoint_auth_method" = none →
        listGet resp "token_endpoint_auth_method" = some (.str "client_secret_post")) ∧
      register_handler sampleConfig (.parsed [("client_name", .str "X")]) 42 =
        (.obj resp, 201)) :=
  (C7_dcr_registration sampleConfig [("client_name", .str "X")] 42).1
    (by decide) (by decide)

/-- C6 counterexample: when the upstream document's
`token_endpoint_auth_methods_supported` value is the JSON string "none"
rather than an array, the Python list comprehension iterates its characters,
so the proxied value becomes the four-element list ["n","o","n","e"] -- the
field neither passes through unchanged nor merely has "none" removed. -/
theorem C6_counterexample :
    proxy_authorization_server_metadata sampleConfig
        (.response { status := 200, contentType := "application/json",
                     jsonBody := some (.obj
                       [("token_endpoint_auth_methods_supported", .str "none"),
                        ("issuer", .str "http://auth.internal")]),
                     text := "" }) =
      Except.ok (.obj
        [("token_endpoint_auth_methods_supported",
          .arr [.str "n", .str "o", .str "n", .str "e"]),
         ("issuer", .str "http://auth.internal"),
         ("registration_endpoint", .str "https://mcp.example.com/register"),
         ("token_endpoint", .str "https://mcp.example.com/oauth/token"),
         ("authorization_endpoint", .str "https://mcp.example.com/authorize")]) := rfl

/-- C6 (amended): for a 2xx upstream JSON object document, the proxied
metadata is the upstream object with `"none"` filtered out of
`token_endpoint_auth_methods_supported` when that key holds an array (other
value shapes are mangled by Python iteration or raise), with the three
endpoints pointed at the MCP server, and with every other field's upstream
value unchanged; transport errors, non-2xx statuses and undecodable bodies
raise, and every raised error is surfaced by the route handler as HTTP 502
with an `upstream_error` body. -/
theorem C6_metadata_proxy (cfg : Config) (kvs : List (String × Json))
    (fetch : PostResult) :
    (∀ r, fetch = .response r → 200 ≤ r.status → r.status < 300 →
      r.jsonBody = some (.obj kvs) →
      (keysOf kvs).contains "token_endpoint_auth_methods_supported" = false →
      proxy_authorization_server_metadata cfg fetch =
        .ok (.obj (listSet (listSet (listSet kvs
          "registration_endpoint" (.str (cfg.mcp_server_url ++ "/register")))
          "token_endpoint" (.str (cfg.mcp_server_url ++ "/oauth/token")))
          "authorization_endpoint" (.str (cfg.mcp_server_url ++ "/authorize"))))) ∧
    (∀ r xs, fetch = .response r → 200 ≤ r.status → r.status < 300 →
      r.jsonBody = some (.obj kvs) →
      (keysOf kvs).contains "token_endpoint_auth_methods_supported" = true →
      listGet kvs "token_endpoint_auth_methods_supported" = some (.arr xs) →
      proxy_authorization_server_metadata cfg fetch =
        .ok (.obj (listSet (listSet (listSet
          (listSet kvs "token_endpoint_auth_methods_supported"
            (.arr (xs.filter (fun x => !(x.eqStr "none")))))
          "registration_endpoint" (.str (cfg.mcp_server_url ++ "/register")))
          "token_endpoint" (.str (cfg.mcp_server_url ++ "/oauth/token")))
          "authorization_endpoint" (.str (cfg.mcp_server_url ++ "/authorize"))))) ∧
    (∀ out r, fetch = .response r → r.jsonBody = some (.obj kvs) →
      proxy_authorization_server_metadata cfg fetch = .ok (.obj out) →
      (∀ k, k ≠ "registration_endpoint" → k ≠ "token_endpoint" →
        k ≠ "authorization_endpoint" →
        k ≠ "token_endpoint_auth_methods_supported" →
        listGet out k = listGet kvs k) ∧
      listGet out "registration_endpoint" =
        some (.str (cfg.mcp_server_url ++ "/register")) ∧
      listGet out "token_endpoint" =
        some (.str (cfg.mcp_server_url ++ "/oauth/token")) ∧
      listGet out "authorization_endpoint" =
        some (.str (cfg.mcp_server_url ++ "/authorize"))) ∧
    ((∀ m, fetch = .requestError m →
        proxy_authorization_server_metadata cfg fetch =
          .error (.requestException m)) ∧
     (∀ r, fetch = .response r → ¬ (200 ≤ r.status ∧ r.status < 300) →
        proxy_authorization_server_metadata cfg fetch =
          .error (.httpStatusError r.status)) ∧
     (∀ r, fetch = .response r → 200 ≤ r.status → r.status < 300 →
        r.jsonBody = none →
        proxy_authorization_server_metadata cfg fetch =
          .error (.valueError "Expecting value: line 1 column 1 (char 0)")) ∧
     (∀ e, proxy_authorization_server_metadata cfg fetch = .error e →
        authorization_server_metadata_handler cfg fetch =
          (.obj [("error", .str "upstream_error"),
                 ("error_description", .str (pyErrMessage e))], 502))) := by
  refine ⟨?_, ?_, ?_, ?_, ?_, ?_, ?_⟩
  · intro r hf h2a h2b hbody hkeys
    subst hf
    rw [proxy_authorization_server_metadata, if_neg (not_not_intro ⟨h2a, h2b⟩),
      hbody]
    have hk2 : "token_endpoint_auth_methods_supported" ∉ keysOf kvs := by
      simpa using hkeys
    simp [hk2, pure, Except.pure, bind, Except.bind]
  · intro r xs hf h2a h2b hbody hkeys hval
    subst hf
    rw [proxy_authorization_server_metadata, if_neg (not_not_intro ⟨h2a, h2b⟩),
      hbody]
    have hk2 : "token_endpoint_auth_methods_supported" ∈ keysOf kvs := by
      simpa using hkeys
    simp [hk2, hval, pyIterFilterNeNone]
  · intro out r hf hbody hok
    subst hf
    rw [proxy_authorization_server_metadata] at hok
    by_cases h2 : 200 ≤ r.status ∧ r.status < 300
    · rw [if_neg (not_not_intro h2), hbody] at hok
      by_cases hkeys : "token_endpoint_auth_methods_supported" ∈ keysOf kvs
      · cases hfv : pyIterFilterNeNone
            ((listGet kvs "token_endpoint_auth_methods_supported").getD .null) with
        | error e => simp [hkeys, hfv] at hok
        | ok fv =>
            simp [hkeys, hfv] at hok
            subst hok
            refine ⟨?_, ?_, ?_, ?_⟩
            · intro k hk1 hk2 hk3 hk4
              rw [listGet_listSet_ne _ _ _ _ hk3, listGet_listSet_ne _ _ _ _ hk2,
                listGet_listSet_ne _ _ _ _ hk1, listGet_listSet_ne _ _ _ _ hk4]
            · rw [listGet_listSet_ne _ _ _ _ (by decide),
                listGet_listSet_ne _ _ _ _ (by decide), listGet_listSet_self]
            · rw [listGet_listSet_ne _ _ _ _ (by decide), listGet_listSet_self]
            · rw [listGet_listSet_self]
      · simp [hkeys, pure, Except.pure, bind, Except.bind] at hok
        subst hok
        refine ⟨?_, ?_, ?_, ?_⟩
        · intro k hk1 hk2 hk3 hk4
          rw [listGet_listSet_ne _ _ _ _ hk3, listGet_listSet_ne _ _ _ _ hk2,
            listGet_listSet_ne _ _ _ _ hk1]
        · rw [listGet_listSet_ne _ _ _ _ (by decide),
            listGet_listSet_ne _ _ _ _ (by decide), listGet_listSet_self]
        · rw [listGet_listSet_ne _ _ _ _ (by decide), listGet_listSet_self]
        · rw [listGet_listSet_self]
    · rw [if_pos h2] at hok
      exact absurd hok (by simp)
  · intro m hf
    subst hf
    rfl
  · intro r hf h2
    subst hf
    rw [proxy_authorization_server_metadata, if_pos h2]
  · intro r hf h2a h2b hbody
    subst hf
    rw [proxy_authorization_server_metadata, if_neg (not_not_intro ⟨h2a, h2b⟩),
      hbody]
  · intro e herr
    rw [authorization_server_metadata_handler, herr]

/-- Witness for C6 on a concrete upstream document containing a methods
array with "none" and an unrelated field. -/
theorem C6_metadata_proxy_witness :
    proxy_authorization_server_metadata sampleConfig
        (.response { status := 200, contentType := "application/json",
                     jsonBody := some (.obj
                       [("token_endpoint_auth_methods_supported",
                         .arr [.str "client_secret_post", .str "none"]),
                        ("scopes_supported", .arr [.str "all"])]),
                     text := "" }) =
      Except.ok (.obj (listSet (listSet (listSet
        (listSet
          [("token_endpoint_auth_methods_supported",
            Json.arr [.str "client_secret_post", .str "none"]),
           ("scopes_supported", Json.arr [.str "all"])]
          "token_endpoint_auth_methods_supported"
          (.arr ([Json.str "client_secret_post", Json.str "none"].filter
            (fun x => !(x.eqStr "none")))))
        "registration_endpoint" (.str (sampleConfig.mcp_server_url ++ "/register")))
        "token_endpoint" (.str (sampleConfig.mcp_server_url ++ "/oauth/token")))
        "authorization_endpoint" (.str (sampleConfig.mcp_server_url ++ "/authorize")))) :=
  (C6_metadata_proxy sampleConfig
      [("token_endpoint_auth_methods_supported",
        .arr [.str "client_secret_post", .str "none"]),
       ("scopes_supported", .arr [.str "all"])]
      (.response { status := 200, contentType := "application/json",
                   jsonBody := some (.obj
                     [("token_endpoint_auth_methods_supported",
                       .arr [.str "client_secret_post", .str "none"]),
                      ("scopes_supported", .arr [.str "all"])]),
                   text := "" })).2.1
    { status := 200, contentType := "application/json",
      jsonBody := some (.obj
        [("token_endpoint_auth_methods_supported",
          .arr [.str "client_secret_post", .str "none"]),
         ("scopes_supported", .arr [.str "all"])]),
      text := "" }
    [.str "client_secret_post", .str "none"]
    rfl (by decide) (by decide) rfl (by decide) rfl

/-- Reduction of `proxy_token_request` on a response whose body decoded. -/
theorem proxy_token_request_response_some (N : Nat) (st : Store) (sid : String)
    (r : UpstreamResponse) (now : Int) (td : Json) (hbody : r.jsonBody = some td) :
    proxy_token_request N st sid (.response r) now =
      (if r.status ≠ 200 then ⟨.ok (td, r.status), st⟩
       else
         match pyContains td "access_token" with
         | .error e => ⟨.error e, st⟩
         | .ok false => ⟨.ok (td, r.status), st⟩
         | .ok true =>
             match create_token td now with
             | .error e => ⟨.error e, st⟩
             | .ok tok => ⟨.ok (td, r.status), set_token N st sid tok now⟩ : ProxyOut) := by
  rw [proxy_token_request, hbody]

/-- C10 counterexample: (i) persisting a token for a new session id into a
full store evicts another session's entry, so more than "only that session's
entry" changes; (ii) a 200 body containing `access_token` but failing
normalisation (`expires_in` = 0) persists nothing and raises instead. -/
theorem C10_counterexample :
    (listGet (proxy_token_request 1 [("aa", sampleSession)] "bb"
        (.response { status := 200, contentType := "application/json",
                     jsonBody := some (.obj [("access_token", .str "newtok")]),
                     text := "" }) 7).store "aa" = none ∧
     listGet [("aa", sampleSession)] "aa" = some sampleSession) ∧
    ((proxy_token_request 1000 [] "bb"
        (.response { status := 200, contentType := "application/json",
                     jsonBody := some (.obj [("access_token", .str "x"),
                                             ("expires_in", .num 0)]),
                     text := "" }) 7).res =
       Except.error (PyError.valueError "expires_in must be positive") ∧
     (proxy_token_request 1000 [] "bb"
        (.response { status := 200, contentType := "application/json",
                     jsonBody := some (.obj [("access_token", .str "x"),
                                             ("expires_in", .num 0)]),
                     text := "" }) 7).store = []) :=
  ⟨⟨rfl, rfl⟩, rfl, rfl⟩

/-- C10 (amended): a 200 response whose JSON body contains `access_token`
and normalises persists the normalised token under `session_id` via
`set_token` -- which updates or inserts that session's entry and touches no
other entry, except that inserting a new id into a full store additionally
evicts exactly one least-recently-accessed entry; every other outcome
(transport error, undecodable body, non-200 status, body without
`access_token`, normalisation failure, non-dict membership `TypeError`)
leaves the Session Store completely unchanged. -/
theorem C10_proxy_store_effects (N : Nat) (st : Store) (sid : String)
    (up : PostResult) (now : Int) :
    (∀ r td tok, up = .response r → r.status = 200 → r.jsonBody = some td →
      pyContains td "access_token" = .ok true →
      create_token td now = .ok tok →
      proxy_token_request N st sid up now =
        ⟨.ok (td, 200), set_token N st sid tok now⟩) ∧
    (∀ tok, storeWF st → 1 ≤ N →
      listGet (set_token N st sid tok now) sid =
        some { token := stampToken tok sid, created_at := now, last_accessed := now } ∧
      ((sid ∈ keysOf st ∨ st.length < N) →
        ∀ k, k ≠ sid → listGet (set_token N st sid tok now) k = listGet st k) ∧
      (sid ∉ keysOf st → st.length = N →
        ∃ ev, (ev ∈ st ∧ ∀ p ∈ st, ev.2.last_accessed ≤ p.2.last_accessed) ∧
          listGet (set_token N st sid tok now) ev.1 = none ∧
          ∀ k, k ∈ keysOf st → k ≠ ev.1 →
            listGet (set_token N st sid tok now) k = listGet st k)) ∧
    ((∀ m, up = .requestError m →
        (proxy_token_request N st sid up now).store = st) ∧
     (∀ r, up = .response r → r.jsonBody = none →
        (proxy_token_request N st sid up now).store = st) ∧
     (∀ r td, up = .response r → r.jsonBody = some td → r.status ≠ 200 →
        (proxy_token_request N st sid up now).store = st) ∧
     (∀ r td, up = .response r → r.jsonBody = some td →
        pyContains td "access_token" = .ok false →
        (proxy_token_request N st sid up now).store = st) ∧
     (∀ r td e, up = .response r → r.status = 200 → r.jsonBody = some td →
        pyContains td "access_token" = .ok true →
        create_token td now = .error e →
        (proxy_token_request N st sid up now).store = st) ∧
     (∀ r td e, up = .response r → r.status = 200 → r.jsonBody = some td →
        pyContains td "access_token" = .error e →
        (proxy_token_request N st sid up now).store = st)) := by
  refine ⟨?_, ?_, ?_, ?_, ?_, ?_, ?_, ?_⟩
  · intro r td tok hf hstat hbody hcont hct
    subst hf
    rw [proxy_token_request_response_some N st sid r now td hbody]
    rw [if_neg (not_not_intro hstat), hcont, hct, hstat]
  · intro tok hwf hN
    refine ⟨?_, ?_, ?_⟩
    · rw [set_token]
      exact listGet_listSet_self _ _ _
    · intro hcase k hk
      have hcond : ¬ ((listGet st sid).isNone = true ∧ st.length ≥ N) := by
        intro ⟨ha, hb⟩
        rcases hcase with hmem | hlt
        · rw [← listGet_isSome_iff] at hmem
          cases h2 : listGet st sid with
          | none => rw [h2] at hmem; simp at hmem
          | some sd => rw [h2] at ha; simp at ha
        · omega
      rw [set_token]
      simp only [if_neg hcond]
      exact listGet_listSet_ne _ _ _ _ hk
    · intro hnot hlen
      have hget : listGet st sid = none := (listGet_eq_none_iff st sid).mpr hnot
      obtain ⟨_, ev, hev, hgone, hothers, _⟩ :=
        set_token_eviction N st sid tok now hwf hlen hN hget
      exact ⟨ev, hev, hgone, fun k hk hkne => (hothers k hk hkne).1⟩
  · intro m hf
    subst hf
    rfl
  · intro r hf hbody
    subst hf
    rw [proxy_token_request, hbody]
  · intro r td hf hbody hstat
    subst hf
    rw [proxy_token_request_response_some N st sid r now td hbody, if_pos hstat]
  · intro r td hf hbody hcont
    subst hf
    rw [proxy_token_request_response_some N st sid r now td hbody]
    by_cases hstat : r.status ≠ 200
    · rw [if_pos hstat]
    · rw [if_neg hstat, hcont]
  · intro r td e hf hstat hbody hcont hct
    subst hf
    rw [proxy_token_request_response_some N st sid r now td hbody,
      if_neg (not_not_intro hstat), hcont, hct]
  · intro r td e hf hstat hbody hcont
    subst hf
    rw [proxy_token_request_response_some N st sid r now td hbody,
      if_neg (not_not_intro hstat), hcont]

/-- Witness for C10 at a concrete successful 200 exchange into an empty
store. -/
theorem C10_proxy_store_effects_witness :
    proxy_token_request 1000 [] "bb"
        (.response { status := 200, contentType := "application/json",
                     jsonBody := some (.obj [("access_token", .str "tok2")]),
                     text := "" }) 7 =
      ⟨.ok (.obj [("access_token", .str "tok2")], 200),
       set_token 1000 [] "bb"
         { access_token := "tok2", token_type := "Bearer", expires_in := 3600,
           refresh_token := none, scope := none, session_id := none,
           created_at := some { aware := true, t := 7 } } 7⟩ :=
  (C10_proxy_store_effects 1000 [] "bb"
      (.response { status := 200, contentType := "application/json",
                   jsonBody := some (.obj [("access_token", .str "tok2")]),
                   text := "" }) 7).1
    { status := 200, contentType := "application/json",
      jsonBody := some (.obj [("access_token", .str "tok2")]), text := "" }
    (.obj [("access_token", .str "tok2")])
    { access_token := "tok2", token_type := "Bearer", expires_in := 3600,
      refresh_token := none, scope := none, session_id := none,
      created_at := some { aware := true, t := 7 } }
    rfl rfl rfl rfl rfl

end RealizeMCP
